import Mathlib

/-!
Shallow embedding of the SelfAdjusting_I2C library (SelfAdjusting_I2C.h /
SelfAdjusting_I2C.cpp) and verification of its specification.

Modelling conventions:
* C `float` arithmetic is modelled exactly over `ℚ`; the float call
  `sqrt` is modelled by `Rat.sqrt`.  `uint8_t`/`uint16_t`/`uint32_t`
  counters are modelled by `ℕ`; the one increment whose wrapping is device
  visible (`consecutiveErrors++`, a `uint8_t`) carries an explicit `% 256`,
  and index wrapping written in the source (`% 10`) is kept verbatim.
* Casts `(uint32)` / `(uint8)` of a nonnegative float truncate toward zero,
  i.e. they take the floor.
* `millis()` is an external clock service: every function that reads it
  takes an explicit `now` argument.
* The hardware sink (`Wire.setClock` inside `setHardwareClockSpeed`) is
  modelled by the observable field `hwClockSpeed`; `setHardwareRiseTime`
  has an empty body on every platform branch in the source, so
  `applyConfiguration` updates only the clock sink.
* Results of external bus transactions (`Wire.requestFrom`,
  `Wire.endTransmission`) are inputs of the corresponding operations.
-/

/-- Constant LEARNING_WINDOW_SIZE from SelfAdjusting_I2C.h. -/
def LEARNING_WINDOW_SIZE : ℕ := 10

/-- Constant ERROR_THRESHOLD from SelfAdjusting_I2C.h. -/
def ERROR_THRESHOLD : ℕ := 3

/-- Constant PERFORMANCE_SAMPLES from SelfAdjusting_I2C.h. -/
def PERFORMANCE_SAMPLES : ℕ := 5

/-- Constant MAX_DEVICES from SelfAdjusting_I2C.h. -/
def MAX_DEVICES : ℕ := 16

/-- Constant DYNAMIC_RANGE_STEPS from SelfAdjusting_I2C.h. -/
def DYNAMIC_RANGE_STEPS : ℕ := 20

/-- Struct DynamicRange from SelfAdjusting_I2C.h. -/
structure DynamicRange where
  min_value : ℕ
  max_value : ℕ
  current_value : ℕ
  default_value : ℕ
  current_step : ℕ
  optimal_step : ℕ
  step_size : ℚ
deriving DecidableEq

/-- Struct I2CPerformanceMetrics from SelfAdjusting_I2C.h. -/
structure I2CPerformanceMetrics where
  successfulTransactions : ℕ
  failedTransactions : ℕ
  totalTransactionTime : ℕ
  averageTransactionTime : ℕ
  errorRate : ℕ
  stabilityScore : ℕ
  lastUpdateTime : ℕ
deriving DecidableEq

/-- Struct I2CConfig from SelfAdjusting_I2C.h. -/
structure I2CConfig where
  clockSpeedStep : ℕ
  riseTimeStep : ℕ
  clockSpeed : ℕ
  riseTime : ℕ
  metrics : I2CPerformanceMetrics
  isValid : Bool
deriving DecidableEq

/-- Struct DeviceConfig from SelfAdjusting_I2C.h. -/
structure DeviceConfig where
  address : ℕ
  config : I2CConfig
  hasCustomConfig : Bool
deriving DecidableEq

/-- Struct AIDecision from SelfAdjusting_I2C.h. -/
structure AIDecision where
  clockSpeedDelta : ℤ
  riseTimeDelta : ℤ
  confidence : ℕ
  shouldAdjust : Bool
  reason : String
deriving DecidableEq

/-- Enum I2CErrorType from SelfAdjusting_I2C.h. -/
inductive I2CErrorType where
  | ERROR_NONE
  | ERROR_TIMEOUT
  | ERROR_NACK_ADDRESS
  | ERROR_NACK_DATA
  | ERROR_OTHER
deriving DecidableEq

/-- Numeric code of an error, as stored in the uint8 errorHistory array. -/
def I2CErrorType.code : I2CErrorType → ℕ
  | .ERROR_NONE => 0
  | .ERROR_TIMEOUT => 1
  | .ERROR_NACK_ADDRESS => 2
  | .ERROR_NACK_DATA => 3
  | .ERROR_OTHER => 4

/-- State of the controller: the fields of class SelfAdjustingI2C together
with the two process-wide static DynamicRange instances and the hardware
clock sink.  deviceConfigs holds the first deviceCount entries of the
fixed array, so deviceCount is its length. -/
structure SelfAdjustingI2C where
  currentConfig : I2CConfig
  bestConfig : I2CConfig
  performanceHistory : List I2CPerformanceMetrics
  deviceConfigs : List DeviceConfig
  historyIndex : ℕ
  consecutiveErrors : ℕ
  lastAdjustmentTime : ℕ
  adjustmentCooldown : ℕ
  lastErrorTime : ℕ
  learningMode : Bool
  emergencyRecovery : Bool
  adaptiveMode : Bool
  performanceScore : ℚ
  trendAnalysis : ℚ
  adaptationRate : ℕ
  currentDeviceAddress : ℕ
  lastError : I2CErrorType
  errorHistory : List ℕ
  errorHistoryIndex : ℕ
  clockSpeedRange : DynamicRange
  riseTimeRange : DynamicRange
  hwClockSpeed : ℕ
deriving DecidableEq

/-- Function calculateValueFromStep (SelfAdjusting_I2C.h lines 854-857). -/
def calculateValueFromStep (range : DynamicRange) (step : ℕ) : ℕ :=
  let st := if step ≥ DYNAMIC_RANGE_STEPS then DYNAMIC_RANGE_STEPS - 1 else step
  range.min_value + ⌊(st : ℚ) * range.step_size⌋₊

/-- Function calculateStepFromValue (SelfAdjusting_I2C.h lines 859-865).
For the two concrete ranges of this library the interior quotient is
below DYNAMIC_RANGE_STEPS, so the uint8 cast is value preserving. -/
def calculateStepFromValue (range : DynamicRange) (value : ℕ) : ℕ :=
  if value ≤ range.min_value then 0
  else if value ≥ range.max_value then DYNAMIC_RANGE_STEPS - 1
  else
    min (⌊((value : ℚ) - (range.min_value : ℚ)) / range.step_size⌋₊)
      (DYNAMIC_RANGE_STEPS - 1)

/-- Function isStepValid (SelfAdjusting_I2C.h line 818). -/
def isStepValid (step : ℕ) : Bool :=
  step < DYNAMIC_RANGE_STEPS

/-- Function updateDynamicRange (SelfAdjusting_I2C.h lines 867-872). -/
def updateDynamicRange (range : DynamicRange) (newStep : ℕ) : DynamicRange :=
  if newStep < DYNAMIC_RANGE_STEPS then
    { range with
      current_step := newStep
      current_value := calculateValueFromStep range newStep }
  else range

/-- All-zero metrics, the result of a memset of I2CPerformanceMetrics. -/
def zeroMetrics : I2CPerformanceMetrics :=
  ⟨0, 0, 0, 0, 0, 0, 0⟩

/-- Function calculateReliabilityScore (SelfAdjusting_I2C.h lines 587-593).
Note it reads currentConfig.metrics of the controller, not any argument. -/
def calculateReliabilityScore (s : SelfAdjustingI2C) : ℚ :=
  let total := s.currentConfig.metrics.successfulTransactions +
    s.currentConfig.metrics.failedTransactions
  if total = 0 then 0
  else (s.currentConfig.metrics.successfulTransactions : ℚ) / (total : ℚ) * 100

/-- Function calculateEfficiencyScore (SelfAdjusting_I2C.h lines 595-602).
It also reads currentConfig.metrics of the controller. -/
def calculateEfficiencyScore (s : SelfAdjustingI2C) : ℚ :=
  if s.currentConfig.metrics.averageTransactionTime = 0 then 0
  else
    max 0 (100 / (1 + (s.currentConfig.metrics.averageTransactionTime : ℚ) / 1000))

/-- Body of calculateStabilityScore (SelfAdjusting_I2C.h lines 604-627),
parameterised by the score function applied to history entries (in the
source that is a recursive call back into calculatePerformanceScore). -/
def stabilityFrom (score : I2CPerformanceMetrics → ℚ) (s : SelfAdjustingI2C) : ℚ :=
  if s.historyIndex < 3 then 50
  else
    let samples := min s.historyIndex LEARNING_WINDOW_SIZE
    let scores := (List.range samples).map
      (fun i => score (s.performanceHistory.getD i zeroMetrics))
    let mean := scores.sum / (samples : ℚ)
    let variance := (scores.map (fun x => (x - mean) * (x - mean))).sum / (samples : ℚ)
    max 0 (100 - Rat.sqrt variance)

/-- Function calculatePerformanceScore (SelfAdjusting_I2C.h lines 576-585)
with explicit fuel: in the source calculatePerformanceScore calls
calculateStabilityScore, which calls calculatePerformanceScore on each
history entry, with no decreasing measure.  Wherever the source
terminates (historyIndex below 3, or every scanned history entry with
zero successes) the result is independent of the fuel for every fuel of
at least 1, because the inner calls return 0 in their first line. -/
def calculatePerformanceScoreF : ℕ → SelfAdjustingI2C → I2CPerformanceMetrics → ℚ
  | 0, _, _ => 0
  | fuel + 1, s, m =>
    if m.successfulTransactions = 0 then 0
    else
      calculateReliabilityScore s * (6 / 10) +
        calculateEfficiencyScore s * (25 / 100) +
        stabilityFrom (calculatePerformanceScoreF fuel s) s * (15 / 100)

/-- Function calculateStabilityScore (SelfAdjusting_I2C.h lines 604-627)
at the canonical fuel. -/
def calculateStabilityScore (s : SelfAdjustingI2C) : ℚ :=
  stabilityFrom (calculatePerformanceScoreF LEARNING_WINDOW_SIZE s) s

/-- Function calculatePerformanceScore (SelfAdjusting_I2C.h lines 576-585)
at the canonical fuel. -/
def calculatePerformanceScore (s : SelfAdjustingI2C) (m : I2CPerformanceMetrics) : ℚ :=
  calculatePerformanceScoreF (LEARNING_WINDOW_SIZE + 1) s m

/-- Function analyzeTrend (SelfAdjusting_I2C.cpp lines 355-371). -/
def analyzeTrend (s : SelfAdjustingI2C) : ℚ :=
  if s.historyIndex < 3 then 0
  else
    let samples := min s.historyIndex LEARNING_WINDOW_SIZE
    let trend := ((List.range (samples - 1)).map (fun i =>
      calculatePerformanceScore s (s.performanceHistory.getD (i + 1) zeroMetrics) -
        calculatePerformanceScore s (s.performanceHistory.getD i zeroMetrics))).sum
    trend / ((samples - 1 : ℕ) : ℚ)

/-- Function getRecentErrorRate (SelfAdjusting_I2C.h lines 808-816). -/
def getRecentErrorRate (s : SelfAdjustingI2C) : ℚ :=
  ((s.errorHistory.countP (fun e => e != 0) : ℚ) / 10) * 100

/-- Function applyConfiguration (SelfAdjusting_I2C.h lines 704-707):
setHardwareClockSpeed forwards to the hardware clock sink; the body of
setHardwareRiseTime is empty on every platform branch in the source, so
no rise-time sink exists. -/
def applyConfiguration (s : SelfAdjustingI2C) : SelfAdjustingI2C :=
  { s with hwClockSpeed := s.currentConfig.clockSpeed }

/-- Function saveCurrentAsBest (SelfAdjusting_I2C.h lines 822-824). -/
def saveCurrentAsBest (s : SelfAdjustingI2C) : SelfAdjustingI2C :=
  { s with bestConfig := s.currentConfig }

/-- Function restoreBestConfiguration (SelfAdjusting_I2C.h lines 826-829). -/
def restoreBestConfiguration (s : SelfAdjustingI2C) : SelfAdjustingI2C :=
  applyConfiguration { s with currentConfig := s.bestConfig }

/-- Function isInRecoveryMode (SelfAdjusting_I2C.h lines 770-772). -/
def isInRecoveryMode (s : SelfAdjustingI2C) : Bool :=
  ERROR_THRESHOLD ≤ s.consecutiveErrors

/-- Function findDeviceConfig (SelfAdjusting_I2C.h lines 785-792): linear
scan over the first deviceCount entries, first match returned. -/
def findDeviceConfig (s : SelfAdjustingI2C) (address : ℕ) : Option DeviceConfig :=
  s.deviceConfigs.find? (fun d => d.address == address)

/-- Function addDeviceConfig (SelfAdjusting_I2C.h lines 794-801). -/
def addDeviceConfig (s : SelfAdjustingI2C) (address : ℕ) : SelfAdjustingI2C :=
  if s.deviceConfigs.length < MAX_DEVICES then
    { s with deviceConfigs := s.deviceConfigs ++ [⟨address, s.currentConfig, false⟩] }
  else s

/-- Mutation through the pointer returned by findDeviceConfig: the first
entry with the given address is replaced, all others are untouched. -/
def updateFirstDevice : List DeviceConfig → ℕ → (DeviceConfig → DeviceConfig) → List DeviceConfig
  | [], _, _ => []
  | d :: ds, a, f => if d.address = a then f d :: ds else d :: updateFirstDevice ds a f

/-- Mutation of the first matching entry performed by removeDeviceConfig
(SelfAdjusting_I2C.cpp lines 166-177): shift-compaction after the first
match, then break. -/
def removeFirstDevice : List DeviceConfig → ℕ → List DeviceConfig
  | [], _ => []
  | d :: ds, a => if d.address = a then ds else d :: removeFirstDevice ds a

/-- Function removeDeviceConfig (SelfAdjusting_I2C.cpp lines 166-177). -/
def removeDeviceConfig (s : SelfAdjustingI2C) (address : ℕ) : SelfAdjustingI2C :=
  { s with deviceConfigs := removeFirstDevice s.deviceConfigs address }

/-- Device-registry part of updatePerformanceMetrics (SelfAdjusting_I2C.h
lines 432-448): auto-create the entry if absent (copying cfg, the global
configuration whose metrics were already updated in this call), then bump
the device counters of the first matching entry. -/
def deviceListUpdate (l : List DeviceConfig) (cfg : I2CConfig) (address : ℕ)
    (success : Bool) (t : ℕ) : List DeviceConfig :=
  let l1 :=
    if (l.find? (fun d => d.address == address)).isNone then
      if l.length < MAX_DEVICES then l ++ [⟨address, cfg, false⟩] else l
    else l
  if (l1.find? (fun d => d.address == address)).isSome then
    updateFirstDevice l1 address (fun d =>
      if success then
        { d with config := { d.config with metrics :=
          { d.config.metrics with
            successfulTransactions := d.config.metrics.successfulTransactions + 1
            totalTransactionTime := d.config.metrics.totalTransactionTime + t } } }
      else
        { d with config := { d.config with metrics :=
          { d.config.metrics with
            failedTransactions := d.config.metrics.failedTransactions + 1 } } })
  else l1

/-- Function updatePerformanceMetrics (SelfAdjusting_I2C.h lines 421-468). -/
def updatePerformanceMetrics (s : SelfAdjustingI2C) (success : Bool) (t : ℕ)
    (deviceAddress : ℕ) (now : ℕ) : SelfAdjustingI2C :=
  let m0 := s.currentConfig.metrics
  let m1 :=
    if success then
      { m0 with
        successfulTransactions := m0.successfulTransactions + 1
        totalTransactionTime := m0.totalTransactionTime + t }
    else
      { m0 with failedTransactions := m0.failedTransactions + 1 }
  let ce := if success then 0 else (s.consecutiveErrors + 1) % 256
  let s1 := { s with currentConfig := { s.currentConfig with metrics := m1 }, consecutiveErrors := ce }
  let s2 :=
    { s1 with deviceConfigs :=
      if s1.adaptiveMode then
        deviceListUpdate s1.deviceConfigs s1.currentConfig deviceAddress success t
      else s1.deviceConfigs }
  let mt := s2.currentConfig.metrics
  let total := mt.successfulTransactions + mt.failedTransactions
  let m2 :=
    if 0 < total then
      let mtErr := { mt with errorRate := mt.failedTransactions * 100 / total }
      if 0 < mtErr.successfulTransactions then
        { mtErr with averageTransactionTime :=
          mtErr.totalTransactionTime / mtErr.successfulTransactions }
      else mtErr
    else mt
  let s3 := { s2 with currentConfig := { s2.currentConfig with metrics :=
    { m2 with lastUpdateTime := now } } }
  { s3 with performanceScore := calculatePerformanceScore s3 s3.currentConfig.metrics }

/-- Function analyzePerformanceAndDecide (SelfAdjusting_I2C.h lines
470-535): returns the decision together with the possibly mutated state
(saveCurrentAsBest in rule 2, restoreBestConfiguration in rule 3). -/
def analyzePerformanceAndDecide (s : SelfAdjustingI2C) (now : ℕ) :
    AIDecision × SelfAdjustingI2C :=
  if now - s.lastAdjustmentTime < s.adjustmentCooldown then
    (⟨0, 0, 0, false, "Cooldown period active"⟩, s)
  else
    let currentScore := calculatePerformanceScore s s.currentConfig.metrics
    let bestScore := calculatePerformanceScore s s.bestConfig.metrics
    let trend := analyzeTrend s
    let recentErrorRate := getRecentErrorRate s
    if recentErrorRate > 10 then
      (⟨-1, 1, 85, true, "High error rate detected"⟩, s)
    else if s.currentConfig.metrics.errorRate = 0 ∧
        s.currentConfig.metrics.successfulTransactions > 20 then
      let promoted := currentScore > bestScore * (115 / 100)
      let s1 := if promoted then saveCurrentAsBest s else s
      if trend > 2 / 10 ∧ s.adaptationRate > 6 then
        (⟨1, -1, 70, true, "Positive trend, optimizing speed"⟩, s1)
      else if trend > 1 / 10 ∧ s.adaptationRate > 3 then
        (⟨1, 0, 60, true, "Moderate optimization"⟩, s1)
      else if promoted then
        (⟨0, 0, 0, false, "New best configuration found"⟩, s1)
      else
        (⟨0, 0, 0, false, "No adjustment needed"⟩, s1)
    else if currentScore < bestScore * (7 / 10) then
      (⟨0, 0, 95, false, "Restoring best configuration"⟩, restoreBestConfiguration s)
    else if s.consecutiveErrors ≥ 2 then
      (⟨-1, 1, 80, true, "Consecutive errors, reducing speed"⟩, s)
    else
      (⟨0, 0, 0, false, "No adjustment needed"⟩, s)

/-- Function applyAIDecision (SelfAdjusting_I2C.h lines 537-574). -/
def applyAIDecision (s : SelfAdjustingI2C) (decision : AIDecision) (now : ℕ) :
    SelfAdjustingI2C :=
  let newClockStep :=
    if decision.clockSpeedDelta > 0 ∧ s.currentConfig.clockSpeedStep < DYNAMIC_RANGE_STEPS - 1 then
      s.currentConfig.clockSpeedStep + 1
    else if decision.clockSpeedDelta < 0 ∧ s.currentConfig.clockSpeedStep > 0 then
      s.currentConfig.clockSpeedStep - 1
    else s.currentConfig.clockSpeedStep
  let newRiseStep :=
    if decision.riseTimeDelta > 0 ∧ s.currentConfig.riseTimeStep < DYNAMIC_RANGE_STEPS - 1 then
      s.currentConfig.riseTimeStep + 1
    else if decision.riseTimeDelta < 0 ∧ s.currentConfig.riseTimeStep > 0 then
      s.currentConfig.riseTimeStep - 1
    else s.currentConfig.riseTimeStep
  if isStepValid newClockStep && isStepValid newRiseStep then
    let cr := updateDynamicRange s.clockSpeedRange newClockStep
    let rr := updateDynamicRange s.riseTimeRange newRiseStep
    let cfg := { s.currentConfig with
      clockSpeedStep := newClockStep
      riseTimeStep := newRiseStep
      clockSpeed := cr.current_value
      riseTime := rr.current_value
      metrics := { zeroMetrics with lastUpdateTime := now } }
    let s1 := applyConfiguration { s with currentConfig := cfg, clockSpeedRange := cr, riseTimeRange := rr }
    { s1 with lastAdjustmentTime := now }
  else s

/-- Function updateErrorHistory together with the lastError and
lastErrorTime assignments at the top of handleError (SelfAdjusting_I2C.h
lines 629-632 and 803-806). -/
def noteError (s : SelfAdjustingI2C) (errorType : I2CErrorType) (now : ℕ) :
    SelfAdjustingI2C :=
  { s with
    lastError := errorType
    lastErrorTime := now
    errorHistory := s.errorHistory.set s.errorHistoryIndex errorType.code
    errorHistoryIndex := (s.errorHistoryIndex + 1) % 10 }

/-- Function emergencyRecoveryProcedure (SelfAdjusting_I2C.h lines 645-666). -/
def emergencyRecoveryProcedure (s : SelfAdjustingI2C) (now : ℕ) : SelfAdjustingI2C :=
  let cr := updateDynamicRange s.clockSpeedRange 0
  let rr := updateDynamicRange s.riseTimeRange (DYNAMIC_RANGE_STEPS - 1)
  let cfg := { s.currentConfig with
    clockSpeedStep := 0
    riseTimeStep := DYNAMIC_RANGE_STEPS - 1
    clockSpeed := cr.current_value
    riseTime := rr.current_value }
  let s1 := applyConfiguration { s with currentConfig := cfg, clockSpeedRange := cr, riseTimeRange := rr }
  { s1 with
    consecutiveErrors := 0
    learningMode := false
    lastAdjustmentTime := now
    adjustmentCooldown := 15000 }

/-- Function incrementalRecovery (SelfAdjusting_I2C.cpp lines 391-401). -/
def incrementalRecovery (s : SelfAdjustingI2C) : SelfAdjustingI2C :=
  let s1 :=
    if s.currentConfig.clockSpeedStep > 0 then
      let cr := updateDynamicRange s.clockSpeedRange (s.currentConfig.clockSpeedStep - 1)
      applyConfiguration { s with
        currentConfig := { s.currentConfig with
          clockSpeedStep := s.currentConfig.clockSpeedStep - 1
          clockSpeed := cr.current_value }
        clockSpeedRange := cr }
    else s
  { s1 with consecutiveErrors := 0 }

/-- Function adaptiveRecovery (SelfAdjusting_I2C.h lines 668-692). -/
def adaptiveRecovery (s : SelfAdjustingI2C) (now : ℕ) : SelfAdjustingI2C :=
  if getRecentErrorRate s > 20 then emergencyRecoveryProcedure s now
  else
    let s1 :=
      if s.currentConfig.clockSpeedStep > 0 then
        let cr := updateDynamicRange s.clockSpeedRange (s.currentConfig.clockSpeedStep - 1)
        { s with
          currentConfig := { s.currentConfig with
            clockSpeedStep := s.currentConfig.clockSpeedStep - 1
            clockSpeed := cr.current_value }
          clockSpeedRange := cr }
      else s
    let s2 :=
      if s1.currentConfig.riseTimeStep < DYNAMIC_RANGE_STEPS - 1 then
        let rr := updateDynamicRange s1.riseTimeRange (s1.currentConfig.riseTimeStep + 1)
        { s1 with
          currentConfig := { s1.currentConfig with
            riseTimeStep := s1.currentConfig.riseTimeStep + 1
            riseTime := rr.current_value }
          riseTimeRange := rr }
      else s1
    { applyConfiguration s2 with consecutiveErrors := 0 }

/-- Function handleError (SelfAdjusting_I2C.h lines 629-643). -/
def handleError (s : SelfAdjustingI2C) (errorType : I2CErrorType) (now : ℕ) :
    SelfAdjustingI2C :=
  let s1 := noteError s errorType now
  if s1.consecutiveErrors ≥ ERROR_THRESHOLD then
    if s1.emergencyRecovery then emergencyRecoveryProcedure s1 now
    else if s1.adaptiveMode then adaptiveRecovery s1 now
    else incrementalRecovery s1
  else s1

/-- Function classifyError (SelfAdjusting_I2C.h lines 694-702). -/
def classifyError (wireError : ℕ) : I2CErrorType :=
  if wireError = 1 then .ERROR_TIMEOUT
  else if wireError = 2 then .ERROR_NACK_ADDRESS
  else if wireError = 3 then .ERROR_NACK_DATA
  else if wireError = 4 then .ERROR_OTHER
  else .ERROR_NONE

/-- Function shouldTriggerAdjustment (SelfAdjusting_I2C.h lines 733-737). -/
def shouldTriggerAdjustment (s : SelfAdjustingI2C) : Bool :=
  let total := s.currentConfig.metrics.successfulTransactions +
    s.currentConfig.metrics.failedTransactions
  0 < total && total % PERFORMANCE_SAMPLES = 0

/-- Learning tail shared by the success paths of requestFrom and
endTransmission (SelfAdjusting_I2C.h lines 311-316 and 367-372). -/
def transactionTail (s : SelfAdjustingI2C) (now : ℕ) : SelfAdjustingI2C :=
  if s.learningMode && shouldTriggerAdjustment s then
    let r := analyzePerformanceAndDecide s now
    if r.1.shouldAdjust then applyAIDecision r.2 r.1 now else r.2
  else s

/-- Function applyDeviceConfiguration (SelfAdjusting_I2C.cpp lines 373-389). -/
def applyDeviceConfiguration (s : SelfAdjustingI2C) (address : ℕ) : SelfAdjustingI2C :=
  match findDeviceConfig s address with
  | none => s
  | some d =>
    if d.hasCustomConfig &&
        (s.currentConfig.clockSpeed != d.config.clockSpeed ||
          s.currentConfig.riseTime != d.config.riseTime) then
      applyConfiguration { s with currentConfig := { s.currentConfig with
        clockSpeedStep := d.config.clockSpeedStep
        riseTimeStep := d.config.riseTimeStep
        clockSpeed := d.config.clockSpeed
        riseTime := d.config.riseTime } }
    else s

/-- Shared failure path: updatePerformanceMetrics with success = false
followed by handleError, as performed by requestFrom and endTransmission
(SelfAdjusting_I2C.h lines 307-310 and 363-366). -/
def recordFailure (s : SelfAdjustingI2C) (errorType : I2CErrorType) (t : ℕ)
    (deviceAddress : ℕ) (now : ℕ) : SelfAdjustingI2C :=
  handleError (updatePerformanceMetrics s false t deviceAddress now) errorType now

/-- Function requestFrom (SelfAdjusting_I2C.h lines 295-345); result is
the value returned by the underlying Wire.requestFrom call, t its
measured duration. -/
def requestFromFn (s : SelfAdjustingI2C) (address : ℕ) (result : ℕ) (t : ℕ)
    (now : ℕ) : SelfAdjustingI2C :=
  let s0 := { s with currentDeviceAddress := address }
  let s1 := if s0.adaptiveMode then applyDeviceConfiguration s0 address else s0
  let s2 := updatePerformanceMetrics s1 (0 < result) t address now
  if result = 0 then handleError s2 .ERROR_TIMEOUT now else transactionTail s2 now

/-- Function beginTransmission (SelfAdjusting_I2C.h lines 347-356). -/
def beginTransmissionFn (s : SelfAdjustingI2C) (address : ℕ) : SelfAdjustingI2C :=
  let s0 := { s with currentDeviceAddress := address }
  if s0.adaptiveMode then applyDeviceConfiguration s0 address else s0

/-- Function endTransmission (SelfAdjusting_I2C.h lines 358-394); result
is the value returned by the underlying Wire.endTransmission call. -/
def endTransmissionFn (s : SelfAdjustingI2C) (result : ℕ) (t : ℕ) (now : ℕ) :
    SelfAdjustingI2C :=
  let s1 := updatePerformanceMetrics s (result = 0) t s.currentDeviceAddress now
  if result ≠ 0 then handleError s1 (classifyError result) now else transactionTail s1 now

/-- Function forceOptimization (SelfAdjusting_I2C.cpp lines 9-19). -/
def forceOptimization (s : SelfAdjustingI2C) (now : ℕ) : SelfAdjustingI2C :=
  let s1 := { s with lastAdjustmentTime := 0 }
  if 0 < s1.currentConfig.metrics.successfulTransactions then
    let r := analyzePerformanceAndDecide s1 now
    if r.1.shouldAdjust then applyAIDecision r.2 r.1 now else r.2
  else s1

/-- Function resetToDefaults (SelfAdjusting_I2C.cpp lines 21-57). -/
def resetToDefaults (s : SelfAdjustingI2C) (now : ℕ) : SelfAdjustingI2C :=
  let cr := updateDynamicRange s.clockSpeedRange 0
  let rr := updateDynamicRange s.riseTimeRange (DYNAMIC_RANGE_STEPS / 2)
  let cfg : I2CConfig := {
    clockSpeedStep := 0
    riseTimeStep := DYNAMIC_RANGE_STEPS / 2
    clockSpeed := cr.current_value
    riseTime := rr.current_value
    metrics := { zeroMetrics with lastUpdateTime := now }
    isValid := true }
  let s1 := applyConfiguration { s with
    currentConfig := cfg
    clockSpeedRange := cr
    riseTimeRange := rr
    consecutiveErrors := 0
    lastAdjustmentTime := 0
    lastErrorTime := 0
    adjustmentCooldown := 5000
    learningMode := true
    emergencyRecovery := true
    adaptiveMode := true
    performanceScore := 0
    trendAnalysis := 0
    adaptationRate := 5
    lastError := .ERROR_NONE
    errorHistoryIndex := 0
    errorHistory := List.replicate 10 0 }
  { s1 with bestConfig := s1.currentConfig }

/-- Function resetLearning (SelfAdjusting_I2C.cpp lines 59-77). -/
def resetLearning (s : SelfAdjustingI2C) (now : ℕ) : SelfAdjustingI2C :=
  { s with
    performanceHistory := List.replicate LEARNING_WINDOW_SIZE zeroMetrics
    historyIndex := 0
    currentConfig := { s.currentConfig with metrics := { zeroMetrics with lastUpdateTime := now } }
    performanceScore := 0
    trendAnalysis := 0
    consecutiveErrors := 0
    lastAdjustmentTime := 0
    errorHistory := List.replicate 10 0
    errorHistoryIndex := 0 }

/-- Function setClockSpeed (SelfAdjusting_I2C.cpp lines 79-87). -/
def setClockSpeed (s : SelfAdjustingI2C) (clockSpeed : ℕ) : SelfAdjustingI2C :=
  let step := calculateStepFromValue s.clockSpeedRange clockSpeed
  if isStepValid step then
    let cr := updateDynamicRange s.clockSpeedRange step
    applyConfiguration { s with
      currentConfig := { s.currentConfig with clockSpeedStep := step, clockSpeed := cr.current_value }
      clockSpeedRange := cr }
  else s

/-- Function setRiseTime (SelfAdjusting_I2C.cpp lines 89-97). -/
def setRiseTime (s : SelfAdjustingI2C) (riseTimeNs : ℕ) : SelfAdjustingI2C :=
  let step := calculateStepFromValue s.riseTimeRange riseTimeNs
  if isStepValid step then
    let rr := updateDynamicRange s.riseTimeRange step
    applyConfiguration { s with
      currentConfig := { s.currentConfig with riseTimeStep := step, riseTime := rr.current_value }
      riseTimeRange := rr }
  else s

/-- Function setDeviceSpecificConfig (SelfAdjusting_I2C.cpp lines 143-164). -/
def setDeviceSpecificConfig (s : SelfAdjustingI2C) (address : ℕ) (clockSpeed : ℕ)
    (riseTime : ℕ) : SelfAdjustingI2C :=
  let s1 := if (findDeviceConfig s address).isNone then addDeviceConfig s address else s
  match findDeviceConfig s1 address with
  | none => s1
  | some _ =>
    let clockStep := calculateStepFromValue s1.clockSpeedRange clockSpeed
    let riseStep := calculateStepFromValue s1.riseTimeRange riseTime
    if isStepValid clockStep && isStepValid riseStep then
      let cr := updateDynamicRange s1.clockSpeedRange clockStep
      let rr := updateDynamicRange s1.riseTimeRange riseStep
      { s1 with
        clockSpeedRange := cr
        riseTimeRange := rr
        deviceConfigs := updateFirstDevice s1.deviceConfigs address (fun d =>
          { d with
            config := { d.config with
              clockSpeedStep := clockStep
              riseTimeStep := riseStep
              clockSpeed := cr.current_value
              riseTime := rr.current_value }
            hasCustomConfig := true }) }
    else s1

/-- Function enableLearning (SelfAdjusting_I2C.h lines 739-744). -/
def enableLearning (s : SelfAdjustingI2C) (enable : Bool) : SelfAdjustingI2C :=
  let s1 := { s with learningMode := enable }
  if enable then { s1 with adjustmentCooldown := 5000 } else s1

/-- Function enableAdaptiveMode (SelfAdjusting_I2C.h lines 746-748). -/
def enableAdaptiveMode (s : SelfAdjustingI2C) (enable : Bool) : SelfAdjustingI2C :=
  { s with adaptiveMode := enable }

/-- Function setAdaptationRate (SelfAdjusting_I2C.h lines 750-752):
constrain clamps into the interval from 1 to 10. -/
def setAdaptationRate (s : SelfAdjustingI2C) (rate : ℕ) : SelfAdjustingI2C :=
  { s with adaptationRate := min (max rate 1) 10 }

/-- Function enableEmergencyRecovery (SelfAdjusting_I2C.cpp lines 179-181). -/
def enableEmergencyRecovery (s : SelfAdjustingI2C) (enable : Bool) : SelfAdjustingI2C :=
  { s with emergencyRecovery := enable }

/-- Function setCooldownPeriod (SelfAdjusting_I2C.cpp lines 183-185). -/
def setCooldownPeriod (s : SelfAdjustingI2C) (milliseconds : ℕ) : SelfAdjustingI2C :=
  { s with adjustmentCooldown := milliseconds }

/-- Loop body of testConfiguration (SelfAdjusting_I2C.cpp lines 292-309),
iterating over the known devices while the test has not failed; wire
lists the successive Wire.endTransmission results and te carries the
accumulated testErrors counter.  Only the metrics of the configuration
under test are touched. -/
def testLoop : ℕ → List ℕ → ℕ → I2CPerformanceMetrics → I2CPerformanceMetrics × Bool
  | 0, _, _, m => (m, true)
  | n + 1, wire, te, m =>
    let r := wire.headD 0
    if r ≠ 0 then
      let te1 := te + 1
      let m1 := { m with failedTransactions := m.failedTransactions + te1 }
      if te1 > 2 then (m1, false) else testLoop n wire.tail te1 m1
    else
      let m1 := { m with
        successfulTransactions := m.successfulTransactions + 1
        failedTransactions := m.failedTransactions + te }
      testLoop n wire.tail te m1

/-- Function testConfiguration (SelfAdjusting_I2C.cpp lines 267-323). -/
def testConfigurationFn (s : SelfAdjustingI2C) (clockStep : ℕ) (riseStep : ℕ)
    (wire : List ℕ) (now : ℕ) : SelfAdjustingI2C × Bool :=
  if !(isStepValid clockStep && isStepValid riseStep) then (s, false)
  else
    let original := s.currentConfig
    let cfg := { s.currentConfig with
      clockSpeedStep := clockStep
      riseTimeStep := riseStep
      clockSpeed := calculateValueFromStep s.clockSpeedRange clockStep
      riseTime := calculateValueFromStep s.riseTimeRange riseStep
      metrics := { zeroMetrics with lastUpdateTime := now } }
    let s1 := applyConfiguration { s with currentConfig := cfg }
    let tl := testLoop s1.deviceConfigs.length wire 0 s1.currentConfig.metrics
    let passed := if s1.deviceConfigs.length = 0 then true else tl.2
    let s2 := { s1 with currentConfig := { s1.currentConfig with metrics := tl.1 } }
    if passed then (s2, true)
    else (applyConfiguration { s2 with currentConfig := original }, false)

/-- Loop body of scanBus (SelfAdjusting_I2C.cpp lines 330-346) at one
address: on a successful ping, register the address if unknown and count
it. -/
def scanBusBody (wire : ℕ → ℕ) (acc : SelfAdjustingI2C × ℕ) (a : ℕ) :
    SelfAdjustingI2C × ℕ :=
  if wire a = 0 then
    (if (findDeviceConfig acc.1 a).isNone then addDeviceConfig acc.1 a else acc.1,
      acc.2 + 1)
  else acc

/-- Function scanBus (SelfAdjusting_I2C.cpp lines 325-353); wire gives
the Wire.endTransmission result of the ping at each address. -/
def scanBusFn (wire : ℕ → ℕ) (s : SelfAdjustingI2C) : SelfAdjustingI2C × ℕ :=
  (List.range' 1 126).foldl (scanBusBody wire) (s, 0)

/-- Inner loop body of scanAndOptimize (SelfAdjusting_I2C.cpp lines
125-135) for one (clockStep, riseStep) combination: run
testConfiguration and keep the best scoring configuration seen so far.
The accumulator carries the state, the best configuration, its score and
the remaining per-combination wire results. -/
def scanOptBody (now : ℕ) (acc : SelfAdjustingI2C × I2CConfig × ℚ × List (List ℕ))
    (combo : ℕ × ℕ) : SelfAdjustingI2C × I2CConfig × ℚ × List (List ℕ) :=
  let tc := testConfigurationFn acc.1 combo.1 combo.2 (acc.2.2.2.headD []) now
  let rest := acc.2.2.2.tail
  if tc.2 then
    let score := calculatePerformanceScore tc.1 tc.1.currentConfig.metrics
    if score > acc.2.2.1 then (tc.1, tc.1.currentConfig, score, rest)
    else (tc.1, acc.2.1, acc.2.2.1, rest)
  else (tc.1, acc.2.1, acc.2.2.1, rest)

/-- Function scanAndOptimize (SelfAdjusting_I2C.cpp lines 111-141); wire
drives the scan pings and wires the per-combination test transactions. -/
def scanAndOptimize (s : SelfAdjustingI2C) (wire : ℕ → ℕ) (wires : List (List ℕ))
    (now : ℕ) : SelfAdjustingI2C :=
  let scanned := scanBusFn wire s
  if scanned.2 = 0 then scanned.1
  else
    let s1 := scanned.1
    let combos := (List.range DYNAMIC_RANGE_STEPS).flatMap
      (fun c => (List.range DYNAMIC_RANGE_STEPS).map (fun r => (c, r)))
    let final := combos.foldl (scanOptBody now) (s1, s1.currentConfig, 0, wires)
    saveCurrentAsBest (applyConfiguration { final.1 with currentConfig := final.2.1 })

/-- Function shiftPerformanceHistory (SelfAdjusting_I2C.cpp lines
432-444).  No other function of the source ever calls it. -/
def shiftPerformanceHistory (s : SelfAdjustingI2C) : SelfAdjustingI2C :=
  let s1 :=
    if s.historyIndex ≥ LEARNING_WINDOW_SIZE then
      { s with
        performanceHistory := s.performanceHistory.tail ++ [zeroMetrics]
        historyIndex := LEARNING_WINDOW_SIZE - 1 }
    else s
  { s1 with
    performanceHistory := s1.performanceHistory.set s1.historyIndex s1.currentConfig.metrics
    historyIndex := s1.historyIndex + 1 }

/-- Static initializer of clockSpeedRange (SelfAdjusting_I2C.h lines
28-36) followed by its part of initializeDynamicRanges
(SelfAdjusting_I2C.h lines 840-852), as run by the constructor. -/
def initialClockSpeedRange : DynamicRange :=
  let r0 : DynamicRange := ⟨75000, 3500000, 100000, 100000, 1, 1, 0⟩
  let r1 := { r0 with step_size :=
    ((r0.max_value - r0.min_value : ℕ) : ℚ) / ((DYNAMIC_RANGE_STEPS - 1 : ℕ) : ℚ) }
  let st := calculateStepFromValue r1 r1.default_value
  { r1 with current_step := st, optimal_step := st }

/-- Static initializer of riseTimeRange (SelfAdjusting_I2C.h lines 39-47)
followed by its part of initializeDynamicRanges, as run by the
constructor. -/
def initialRiseTimeRange : DynamicRange :=
  let r0 : DynamicRange := ⟨40, 250, 125, 125, 8, 8, 0⟩
  let r1 := { r0 with step_size :=
    ((r0.max_value - r0.min_value : ℕ) : ℚ) / ((DYNAMIC_RANGE_STEPS - 1 : ℕ) : ℚ) }
  let st := calculateStepFromValue r1 r1.default_value
  { r1 with current_step := st, optimal_step := st }

/-- Constructor SelfAdjustingI2C (SelfAdjusting_I2C.h lines 237-273).
The hardware sink is still untouched at this point (begin applies the
configuration); it is modelled as 0. -/
def initialState : SelfAdjustingI2C :=
  let cfg : I2CConfig := {
    clockSpeedStep := initialClockSpeedRange.current_step
    riseTimeStep := initialRiseTimeRange.current_step
    clockSpeed := initialClockSpeedRange.current_value
    riseTime := initialRiseTimeRange.current_value
    metrics := zeroMetrics
    isValid := true }
  { currentConfig := cfg
    bestConfig := cfg
    performanceHistory := List.replicate LEARNING_WINDOW_SIZE zeroMetrics
    deviceConfigs := []
    historyIndex := 0
    consecutiveErrors := 0
    lastAdjustmentTime := 0
    adjustmentCooldown := 5000
    lastErrorTime := 0
    learningMode := true
    emergencyRecovery := true
    adaptiveMode := true
    performanceScore := 0
    trendAnalysis := 0
    adaptationRate := 5
    currentDeviceAddress := 0
    lastError := .ERROR_NONE
    errorHistory := List.replicate 10 0
    errorHistoryIndex := 0
    clockSpeedRange := initialClockSpeedRange
    riseTimeRange := initialRiseTimeRange
    hwClockSpeed := 0 }

/-- Public operations of the controller, with every value supplied by an
external collaborator (Wire results, measured durations, the millis
clock) as an explicit argument.  The pure pass-through members (write,
available, read, peek, flush, end, the const query members and the two
print members) do not touch the modelled state and are represented by
passthrough. -/
inductive Op where
  | beginBus (now : ℕ)
  | passthrough
  | requestFromOp (address result t now : ℕ)
  | beginTransmissionOp (address : ℕ)
  | endTransmissionOp (result t now : ℕ)
  | enableLearningOp (enable : Bool)
  | enableAdaptiveModeOp (enable : Bool)
  | setAdaptationRateOp (rate : ℕ)
  | forceOptimizationOp (now : ℕ)
  | resetToDefaultsOp (now : ℕ)
  | resetLearningOp (now : ℕ)
  | setClockSpeedOp (clockSpeed : ℕ)
  | setRiseTimeOp (riseTimeNs : ℕ)
  | setDeviceSpecificConfigOp (address clockSpeed riseTime : ℕ)
  | removeDeviceConfigOp (address : ℕ)
  | enableEmergencyRecoveryOp (enable : Bool)
  | setCooldownPeriodOp (milliseconds : ℕ)
  | testConfigurationOp (clockStep riseStep : ℕ) (wire : List ℕ) (now : ℕ)
  | scanBusOp (wire : ℕ → ℕ)
  | scanAndOptimizeOp (wire : ℕ → ℕ) (wires : List (List ℕ)) (now : ℕ)

/-- Effect of one public operation on the controller state. -/
def stepOp (op : Op) (s : SelfAdjustingI2C) : SelfAdjustingI2C :=
  match op with
  | .beginBus now =>
    let s1 := applyConfiguration s
    { s1 with currentConfig := { s1.currentConfig with metrics :=
      { s1.currentConfig.metrics with lastUpdateTime := now } } }
  | .passthrough => s
  | .requestFromOp address result t now => requestFromFn s address result t now
  | .beginTransmissionOp address => beginTransmissionFn s address
  | .endTransmissionOp result t now => endTransmissionFn s result t now
  | .enableLearningOp enable => enableLearning s enable
  | .enableAdaptiveModeOp enable => enableAdaptiveMode s enable
  | .setAdaptationRateOp rate => setAdaptationRate s rate
  | .forceOptimizationOp now => forceOptimization s now
  | .resetToDefaultsOp now => resetToDefaults s now
  | .resetLearningOp now => resetLearning s now
  | .setClockSpeedOp clockSpeed => setClockSpeed s clockSpeed
  | .setRiseTimeOp riseTimeNs => setRiseTime s riseTimeNs
  | .setDeviceSpecificConfigOp address clockSpeed riseTime =>
    setDeviceSpecificConfig s address clockSpeed riseTime
  | .removeDeviceConfigOp address => removeDeviceConfig s address
  | .enableEmergencyRecoveryOp enable => enableEmergencyRecovery s enable
  | .setCooldownPeriodOp milliseconds => setCooldownPeriod s milliseconds
  | .testConfigurationOp clockStep riseStep wire now =>
    (testConfigurationFn s clockStep riseStep wire now).1
  | .scanBusOp wire => (scanBusFn wire s).1
  | .scanAndOptimizeOp wire wires now => scanAndOptimize s wire wires now

/-! Projection lemmas: which fields each operation leaves untouched.
These drive the two global invariants (historyIndex, consecutiveErrors). -/

@[simp]
theorem applyConfiguration_historyIndex (s : SelfAdjustingI2C) :
    (applyConfiguration s).historyIndex = s.historyIndex := rfl

@[simp]
theorem applyConfiguration_consecutiveErrors (s : SelfAdjustingI2C) :
    (applyConfiguration s).consecutiveErrors = s.consecutiveErrors := rfl

@[simp]
theorem saveCurrentAsBest_historyIndex (s : SelfAdjustingI2C) :
    (saveCurrentAsBest s).historyIndex = s.historyIndex := rfl

@[simp]
theorem saveCurrentAsBest_consecutiveErrors (s : SelfAdjustingI2C) :
    (saveCurrentAsBest s).consecutiveErrors = s.consecutiveErrors := rfl

@[simp]
theorem restoreBestConfiguration_historyIndex (s : SelfAdjustingI2C) :
    (restoreBestConfiguration s).historyIndex = s.historyIndex := rfl

@[simp]
theorem restoreBestConfiguration_consecutiveErrors (s : SelfAdjustingI2C) :
    (restoreBestConfiguration s).consecutiveErrors = s.consecutiveErrors := rfl

@[simp]
theorem addDeviceConfig_historyIndex (s : SelfAdjustingI2C) (a : ℕ) :
    (addDeviceConfig s a).historyIndex = s.historyIndex := by
  unfold addDeviceConfig; split <;> rfl

@[simp]
theorem addDeviceConfig_consecutiveErrors (s : SelfAdjustingI2C) (a : ℕ) :
    (addDeviceConfig s a).consecutiveErrors = s.consecutiveErrors := by
  unfold addDeviceConfig; split <;> rfl

@[simp]
theorem updatePerformanceMetrics_historyIndex (s : SelfAdjustingI2C)
    (success : Bool) (t a now : ℕ) :
    (updatePerformanceMetrics s success t a now).historyIndex = s.historyIndex := by
  unfold updatePerformanceMetrics; rfl

@[simp]
theorem updatePerformanceMetrics_consecutiveErrors (s : SelfAdjustingI2C)
    (success : Bool) (t a now : ℕ) :
    (updatePerformanceMetrics s success t a now).consecutiveErrors =
      if success then 0 else (s.consecutiveErrors + 1) % 256 := by
  unfold updatePerformanceMetrics; rfl

@[simp]
theorem noteError_historyIndex (s : SelfAdjustingI2C) (e : I2CErrorType) (now : ℕ) :
    (noteError s e now).historyIndex = s.historyIndex := rfl

@[simp]
theorem noteError_consecutiveErrors (s : SelfAdjustingI2C) (e : I2CErrorType) (now : ℕ) :
    (noteError s e now).consecutiveErrors = s.consecutiveErrors := rfl

@[simp]
theorem emergencyRecoveryProcedure_historyIndex (s : SelfAdjustingI2C) (now : ℕ) :
    (emergencyRecoveryProcedure s now).historyIndex = s.historyIndex := rfl

@[simp]
theorem emergencyRecoveryProcedure_consecutiveErrors (s : SelfAdjustingI2C) (now : ℕ) :
    (emergencyRecoveryProcedure s now).consecutiveErrors = 0 := rfl

@[simp]
theorem incrementalRecovery_historyIndex (s : SelfAdjustingI2C) :
    (incrementalRecovery s).historyIndex = s.historyIndex := by
  unfold incrementalRecovery; split <;> rfl

@[simp]
theorem incrementalRecovery_consecutiveErrors (s : SelfAdjustingI2C) :
    (incrementalRecovery s).consecutiveErrors = 0 := rfl

@[simp]
theorem adaptiveRecovery_historyIndex (s : SelfAdjustingI2C) (now : ℕ) :
    (adaptiveRecovery s now).historyIndex = s.historyIndex := by
  unfold adaptiveRecovery
  dsimp only
  split
  · rfl
  · split <;> split <;> rfl

@[simp]
theorem adaptiveRecovery_consecutiveErrors (s : SelfAdjustingI2C) (now : ℕ) :
    (adaptiveRecovery s now).consecutiveErrors = 0 := by
  unfold adaptiveRecovery
  dsimp only
  split <;> rfl

@[simp]
theorem handleError_historyIndex (s : SelfAdjustingI2C) (e : I2CErrorType) (now : ℕ) :
    (handleError s e now).historyIndex = s.historyIndex := by
  unfold handleError
  dsimp only
  split
  · split
    · simp
    · split <;> simp
  · rfl

theorem handleError_consecutiveErrors (s : SelfAdjustingI2C) (e : I2CErrorType) (now : ℕ) :
    (handleError s e now).consecutiveErrors =
      if s.consecutiveErrors ≥ ERROR_THRESHOLD then 0 else s.consecutiveErrors := by
  unfold handleError
  dsimp only
  split
  · rename_i h
    simp only [noteError_consecutiveErrors] at h
    rw [if_pos h]
    split
    · simp
    · split <;> simp
  · rename_i h
    simp only [noteError_consecutiveErrors] at h
    rw [if_neg h]
    exact noteError_consecutiveErrors s e now

@[simp]
theorem analyzePerformanceAndDecide_snd_historyIndex (s : SelfAdjustingI2C) (now : ℕ) :
    (analyzePerformanceAndDecide s now).2.historyIndex = s.historyIndex := by
  unfold analyzePerformanceAndDecide
  dsimp only
  repeat' split
  all_goals simp

@[simp]
theorem analyzePerformanceAndDecide_snd_consecutiveErrors (s : SelfAdjustingI2C) (now : ℕ) :
    (analyzePerformanceAndDecide s now).2.consecutiveErrors = s.consecutiveErrors := by
  unfold analyzePerformanceAndDecide
  dsimp only
  repeat' split
  all_goals simp

@[simp]
theorem applyAIDecision_historyIndex (s : SelfAdjustingI2C) (d : AIDecision) (now : ℕ) :
    (applyAIDecision s d now).historyIndex = s.historyIndex := by
  unfold applyAIDecision
  dsimp only
  repeat' split
  all_goals simp

@[simp]
theorem applyAIDecision_consecutiveErrors (s : SelfAdjustingI2C) (d : AIDecision) (now : ℕ) :
    (applyAIDecision s d now).consecutiveErrors = s.consecutiveErrors := by
  unfold applyAIDecision
  dsimp only
  repeat' split
  all_goals simp

@[simp]
theorem transactionTail_historyIndex (s : SelfAdjustingI2C) (now : ℕ) :
    (transactionTail s now).historyIndex = s.historyIndex := by
  unfold transactionTail
  dsimp only
  repeat' split
  all_goals simp

@[simp]
theorem transactionTail_consecutiveErrors (s : SelfAdjustingI2C) (now : ℕ) :
    (transactionTail s now).consecutiveErrors = s.consecutiveErrors := by
  unfold transactionTail
  dsimp only
  repeat' split
  all_goals simp

@[simp]
theorem applyDeviceConfiguration_historyIndex (s : SelfAdjustingI2C) (a : ℕ) :
    (applyDeviceConfiguration s a).historyIndex = s.historyIndex := by
  unfold applyDeviceConfiguration
  repeat' split
  all_goals simp

@[simp]
theorem applyDeviceConfiguration_consecutiveErrors (s : SelfAdjustingI2C) (a : ℕ) :
    (applyDeviceConfiguration s a).consecutiveErrors = s.consecutiveErrors := by
  unfold applyDeviceConfiguration
  repeat' split
  all_goals simp

/-- After handleError the consecutive-error counter is always below the
threshold: a breach resets it to 0 and otherwise it was below already. -/
theorem handleError_consecutiveErrors_lt (s : SelfAdjustingI2C) (e : I2CErrorType)
    (now : ℕ) : (handleError s e now).consecutiveErrors < ERROR_THRESHOLD := by
  rw [handleError_consecutiveErrors]
  unfold ERROR_THRESHOLD
  split
  · decide
  · rename_i h
    omega

@[simp]
theorem requestFromFn_historyIndex (s : SelfAdjustingI2C) (a r t now : ℕ) :
    (requestFromFn s a r t now).historyIndex = s.historyIndex := by
  unfold requestFromFn
  dsimp only
  repeat' split
  all_goals simp

theorem requestFromFn_consecutiveErrors_lt (s : SelfAdjustingI2C) (a r t now : ℕ) :
    (requestFromFn s a r t now).consecutiveErrors < ERROR_THRESHOLD := by
  unfold requestFromFn
  dsimp only
  split
  · exact handleError_consecutiveErrors_lt _ _ _
  · rename_i hr
    rw [transactionTail_consecutiveErrors, updatePerformanceMetrics_consecutiveErrors]
    have h0 : 0 < r := Nat.pos_of_ne_zero hr
    simp [h0, ERROR_THRESHOLD]

@[simp]
theorem beginTransmissionFn_historyIndex (s : SelfAdjustingI2C) (a : ℕ) :
    (beginTransmissionFn s a).historyIndex = s.historyIndex := by
  unfold beginTransmissionFn
  dsimp only
  split <;> simp

@[simp]
theorem beginTransmissionFn_consecutiveErrors (s : SelfAdjustingI2C) (a : ℕ) :
    (beginTransmissionFn s a).consecutiveErrors = s.consecutiveErrors := by
  unfold beginTransmissionFn
  dsimp only
  split <;> simp

@[simp]
theorem endTransmissionFn_historyIndex (s : SelfAdjustingI2C) (r t now : ℕ) :
    (endTransmissionFn s r t now).historyIndex = s.historyIndex := by
  unfold endTransmissionFn
  dsimp only
  repeat' split
  all_goals simp

theorem endTransmissionFn_consecutiveErrors_lt (s : SelfAdjustingI2C) (r t now : ℕ) :
    (endTransmissionFn s r t now).consecutiveErrors < ERROR_THRESHOLD := by
  unfold endTransmissionFn
  dsimp only
  split
  · exact handleError_consecutiveErrors_lt _ _ _
  · rename_i hr
    rw [transactionTail_consecutiveErrors, updatePerformanceMetrics_consecutiveErrors]
    have h0 : r = 0 := by
      by_contra hc
      exact hr hc
    simp [h0, ERROR_THRESHOLD]

@[simp]
theorem forceOptimization_historyIndex (s : SelfAdjustingI2C) (now : ℕ) :
    (forceOptimization s now).historyIndex = s.historyIndex := by
  unfold forceOptimization
  dsimp only
  repeat' split
  all_goals simp

@[simp]
theorem forceOptimization_consecutiveErrors (s : SelfAdjustingI2C) (now : ℕ) :
    (forceOptimization s now).consecutiveErrors = s.consecutiveErrors := by
  unfold forceOptimization
  dsimp only
  repeat' split
  all_goals simp

@[simp]
theorem resetToDefaults_historyIndex (s : SelfAdjustingI2C) (now : ℕ) :
    (resetToDefaults s now).historyIndex = s.historyIndex := rfl

@[simp]
theorem resetToDefaults_consecutiveErrors (s : SelfAdjustingI2C) (now : ℕ) :
    (resetToDefaults s now).consecutiveErrors = 0 := rfl

@[simp]
theorem resetLearning_historyIndex (s : SelfAdjustingI2C) (now : ℕ) :
    (resetLearning s now).historyIndex = 0 := rfl

@[simp]
theorem resetLearning_consecutiveErrors (s : SelfAdjustingI2C) (now : ℕ) :
    (resetLearning s now).consecutiveErrors = 0 := rfl

@[simp]
theorem setClockSpeed_historyIndex (s : SelfAdjustingI2C) (v : ℕ) :
    (setClockSpeed s v).historyIndex = s.historyIndex := by
  unfold setClockSpeed
  dsimp only
  split <;> rfl

@[simp]
theorem setClockSpeed_consecutiveErrors (s : SelfAdjustingI2C) (v : ℕ) :
    (setClockSpeed s v).consecutiveErrors = s.consecutiveErrors := by
  unfold setClockSpeed
  dsimp only
  split <;> rfl

@[simp]
theorem setRiseTime_historyIndex (s : SelfAdjustingI2C) (v : ℕ) :
    (setRiseTime s v).historyIndex = s.historyIndex := by
  unfold setRiseTime
  dsimp only
  split <;> rfl

@[simp]
theorem setRiseTime_consecutiveErrors (s : SelfAdjustingI2C) (v : ℕ) :
    (setRiseTime s v).consecutiveErrors = s.consecutiveErrors := by
  unfold setRiseTime
  dsimp only
  split <;> rfl

@[simp]
theorem setDeviceSpecificConfig_historyIndex (s : SelfAdjustingI2C) (a cv rv : ℕ) :
    (setDeviceSpecificConfig s a cv rv).historyIndex = s.historyIndex := by
  unfold setDeviceSpecificConfig
  dsimp only
  repeat' split
  all_goals simp

@[simp]
theorem setDeviceSpecificConfig_consecutiveErrors (s : SelfAdjustingI2C) (a cv rv : ℕ) :
    (setDeviceSpecificConfig s a cv rv).consecutiveErrors = s.consecutiveErrors := by
  unfold setDeviceSpecificConfig
  dsimp only
  repeat' split
  all_goals simp

@[simp]
theorem removeDeviceConfig_historyIndex (s : SelfAdjustingI2C) (a : ℕ) :
    (removeDeviceConfig s a).historyIndex = s.historyIndex := rfl

@[simp]
theorem removeDeviceConfig_consecutiveErrors (s : SelfAdjustingI2C) (a : ℕ) :
    (removeDeviceConfig s a).consecutiveErrors = s.consecutiveErrors := rfl

@[simp]
theorem enableLearning_historyIndex (s : SelfAdjustingI2C) (b : Bool) :
    (enableLearning s b).historyIndex = s.historyIndex := by
  unfold enableLearning
  dsimp only
  split <;> rfl

@[simp]
theorem enableLearning_consecutiveErrors (s : SelfAdjustingI2C) (b : Bool) :
    (enableLearning s b).consecutiveErrors = s.consecutiveErrors := by
  unfold enableLearning
  dsimp only
  split <;> rfl

@[simp]
theorem testConfigurationFn_fst_historyIndex (s : SelfAdjustingI2C)
    (cs rs : ℕ) (wire : List ℕ) (now : ℕ) :
    (testConfigurationFn s cs rs wire now).1.historyIndex = s.historyIndex := by
  unfold testConfigurationFn
  dsimp only
  repeat' split
  all_goals rfl

@[simp]
theorem testConfigurationFn_fst_consecutiveErrors (s : SelfAdjustingI2C)
    (cs rs : ℕ) (wire : List ℕ) (now : ℕ) :
    (testConfigurationFn s cs rs wire now).1.consecutiveErrors = s.consecutiveErrors := by
  unfold testConfigurationFn
  dsimp only
  repeat' split
  all_goals rfl

/-- Foldl preserves any invariant preserved by its body. -/
theorem foldl_preserves {α β : Type _} (P : β → Prop) (f : β → α → β)
    (hf : ∀ b a, P b → P (f b a)) :
    ∀ (l : List α) (b : β), P b → P (l.foldl f b) := by
  intro l
  induction l with
  | nil => intro b hb; exact hb
  | cons x xs ih => intro b hb; exact ih _ (hf b x hb)

theorem scanBusBody_fields (wire : ℕ → ℕ) (b : SelfAdjustingI2C × ℕ) (a : ℕ) :
    (scanBusBody wire b a).1.historyIndex = b.1.historyIndex ∧
      (scanBusBody wire b a).1.consecutiveErrors = b.1.consecutiveErrors := by
  unfold scanBusBody
  split
  · refine ⟨?_, ?_⟩ <;> · split <;> simp
  · exact ⟨rfl, rfl⟩

theorem scanBusFn_fst_fields (wire : ℕ → ℕ) (s : SelfAdjustingI2C) :
    (scanBusFn wire s).1.historyIndex = s.historyIndex ∧
      (scanBusFn wire s).1.consecutiveErrors = s.consecutiveErrors := by
  unfold scanBusFn
  exact foldl_preserves
    (fun p => p.1.historyIndex = s.historyIndex ∧ p.1.consecutiveErrors = s.consecutiveErrors)
    (scanBusBody wire)
    (fun b a hb => ⟨((scanBusBody_fields wire b a).1).trans hb.1,
      ((scanBusBody_fields wire b a).2).trans hb.2⟩)
    (List.range' 1 126) (s, 0) ⟨rfl, rfl⟩

theorem scanAndOptimize_fields (s : SelfAdjustingI2C) (wire : ℕ → ℕ)
    (wires : List (List ℕ)) (now : ℕ) :
    (scanAndOptimize s wire wires now).historyIndex = s.historyIndex ∧
      (scanAndOptimize s wire wires now).consecutiveErrors = s.consecutiveErrors := by
  unfold scanAndOptimize
  dsimp only
  split
  · exact scanBusFn_fst_fields wire s
  · have hscan := scanBusFn_fst_fields wire s
    have hbody : ∀ (b : SelfAdjustingI2C × I2CConfig × ℚ × List (List ℕ)) (a : ℕ × ℕ),
        (scanOptBody now b a).1.historyIndex = b.1.historyIndex ∧
          (scanOptBody now b a).1.consecutiveErrors = b.1.consecutiveErrors := by
      intro b a
      unfold scanOptBody
      dsimp only
      repeat' split
      all_goals simp
    have hfold := foldl_preserves
      (fun (acc : SelfAdjustingI2C × I2CConfig × ℚ × List (List ℕ)) =>
        acc.1.historyIndex = s.historyIndex ∧ acc.1.consecutiveErrors = s.consecutiveErrors)
      (scanOptBody now)
      (fun b a hb => ⟨((hbody b a).1).trans hb.1, ((hbody b a).2).trans hb.2⟩)
      ((List.range DYNAMIC_RANGE_STEPS).flatMap
        (fun c => (List.range DYNAMIC_RANGE_STEPS).map (fun r => (c, r))))
      ((scanBusFn wire s).1, (scanBusFn wire s).1.currentConfig, 0, wires)
      ⟨hscan.1, hscan.2⟩
    exact ⟨by simp [hfold.1], by simp [hfold.2]⟩

theorem stepOp_historyIndex_zero (op : Op) (s : SelfAdjustingI2C)
    (h : s.historyIndex = 0) : (stepOp op s).historyIndex = 0 := by
  cases op
  case scanBusOp wire =>
    show (scanBusFn wire s).1.historyIndex = 0
    rw [(scanBusFn_fst_fields wire s).1]
    exact h
  case scanAndOptimizeOp wire wires now =>
    show (scanAndOptimize s wire wires now).historyIndex = 0
    rw [(scanAndOptimize_fields s wire wires now).1]
    exact h
  all_goals simp [stepOp, h, enableAdaptiveMode, setAdaptationRate,
    enableEmergencyRecovery, setCooldownPeriod]

theorem stepOp_consecutiveErrors_lt (op : Op) (s : SelfAdjustingI2C)
    (h : s.consecutiveErrors < ERROR_THRESHOLD) :
    (stepOp op s).consecutiveErrors < ERROR_THRESHOLD := by
  cases op
  case requestFromOp a r t now => exact requestFromFn_consecutiveErrors_lt s a r t now
  case endTransmissionOp r t now => exact endTransmissionFn_consecutiveErrors_lt s r t now
  case scanBusOp wire =>
    show (scanBusFn wire s).1.consecutiveErrors < ERROR_THRESHOLD
    rw [(scanBusFn_fst_fields wire s).2]
    exact h
  case scanAndOptimizeOp wire wires now =>
    show (scanAndOptimize s wire wires now).consecutiveErrors < ERROR_THRESHOLD
    rw [(scanAndOptimize_fields s wire wires now).2]
    exact h
  all_goals simp only [ERROR_THRESHOLD] at h
  all_goals simp [stepOp, h, enableAdaptiveMode, setAdaptationRate,
    enableEmergencyRecovery, setCooldownPeriod, ERROR_THRESHOLD]

theorem analyzeTrend_of_historyIndex_zero (s : SelfAdjustingI2C)
    (h : s.historyIndex = 0) : analyzeTrend s = 0 := by
  unfold analyzeTrend
  rw [if_pos (by rw [h]; decide)]

theorem calculateStabilityScore_of_historyIndex_zero (s : SelfAdjustingI2C)
    (h : s.historyIndex = 0) : calculateStabilityScore s = 50 := by
  unfold calculateStabilityScore stabilityFrom
  rw [if_pos (by rw [h]; decide)]

theorem decision_trend_reasons_unreachable (s : SelfAdjustingI2C) (now : ℕ)
    (h : s.historyIndex = 0) :
    (analyzePerformanceAndDecide s now).1.reason ≠ "Positive trend, optimizing speed" ∧
      (analyzePerformanceAndDecide s now).1.reason ≠ "Moderate optimization" := by
  have ht := analyzeTrend_of_historyIndex_zero s h
  unfold analyzePerformanceAndDecide
  dsimp only
  split
  · exact ⟨by simp, by simp⟩
  split
  · exact ⟨by simp, by simp⟩
  split
  · rw [ht]
    rw [if_neg (by rintro ⟨h1, -⟩; norm_num at h1)]
    rw [if_neg (by rintro ⟨h1, -⟩; norm_num at h1)]
    split
    · exact ⟨by simp, by simp⟩
    · exact ⟨by simp, by simp⟩
  split
  · exact ⟨by simp, by simp⟩
  split
  · exact ⟨by simp, by simp⟩
  · exact ⟨by simp, by simp⟩

/-- C9: no public operation ever advances the performance-history index
(shiftPerformanceHistory, the only incrementing routine, has no caller),
so historyIndex stays at its initial value 0 forever; consequently
analyzeTrend always returns 0, calculateStabilityScore always returns
the insufficient-data value 50, and the two decision branches guarded by
a positive trend ("Positive trend, optimizing speed" and "Moderate
optimization") are unreachable. -/
theorem historyIndex_frozen_and_consequences :
    initialState.historyIndex = 0 ∧
    (∀ (op : Op) (s : SelfAdjustingI2C), s.historyIndex = 0 →
      (stepOp op s).historyIndex = 0) ∧
    (∀ s : SelfAdjustingI2C, s.historyIndex = 0 → analyzeTrend s = 0) ∧
    (∀ s : SelfAdjustingI2C, s.historyIndex = 0 → calculateStabilityScore s = 50) ∧
    (∀ (s : SelfAdjustingI2C) (now : ℕ), s.historyIndex = 0 →
      (analyzePerformanceAndDecide s now).1.reason ≠ "Positive trend, optimizing speed" ∧
        (analyzePerformanceAndDecide s now).1.reason ≠ "Moderate optimization") :=
  ⟨rfl, stepOp_historyIndex_zero, analyzeTrend_of_historyIndex_zero,
    calculateStabilityScore_of_historyIndex_zero, decision_trend_reasons_unreachable⟩

/-- Witness for C9 at the freshly constructed controller and a concrete
failing transaction. -/
theorem historyIndex_frozen_and_consequences_witness :
    (stepOp (.endTransmissionOp 2 100 0) initialState).historyIndex = 0 ∧
    analyzeTrend initialState = 0 ∧
    calculateStabilityScore initialState = 50 ∧
    (analyzePerformanceAndDecide initialState 6000).1.reason ≠
      "Positive trend, optimizing speed" :=
  ⟨historyIndex_frozen_and_consequences.2.1 (.endTransmissionOp 2 100 0) initialState rfl,
    historyIndex_frozen_and_consequences.2.2.1 initialState rfl,
    historyIndex_frozen_and_consequences.2.2.2.1 initialState rfl,
    (historyIndex_frozen_and_consequences.2.2.2.2 initialState 6000 rfl).1⟩

/-- C10: at the boundary of every public operation the consecutive-error
counter is below ERROR_THRESHOLD (every failure path runs handleError
within the same operation and every recovery tier resets the counter),
so isInRecoveryMode returns false at every point a caller can invoke
it. -/
theorem recoveryMode_never_observable :
    initialState.consecutiveErrors < ERROR_THRESHOLD ∧
    (∀ (op : Op) (s : SelfAdjustingI2C), s.consecutiveErrors < ERROR_THRESHOLD →
      (stepOp op s).consecutiveErrors < ERROR_THRESHOLD) ∧
    (∀ s : SelfAdjustingI2C, s.consecutiveErrors < ERROR_THRESHOLD →
      isInRecoveryMode s = false) := by
  refine ⟨by decide, stepOp_consecutiveErrors_lt, ?_⟩
  intro s h
  unfold isInRecoveryMode
  simp only [decide_eq_false_iff_not]
  omega

/-- Witness for C10 at the freshly constructed controller and a concrete
failing transaction. -/
theorem recoveryMode_never_observable_witness :
    (stepOp (.requestFromOp 8 0 100 0) initialState).consecutiveErrors < ERROR_THRESHOLD ∧
    isInRecoveryMode initialState = false :=
  ⟨recoveryMode_never_observable.2.1 (.requestFromOp 8 0 100 0) initialState (by decide),
    recoveryMode_never_observable.2.2 initialState (by decide)⟩

/-- C8: any two decision-engine invocations made inside the cooldown
window return the identical no-op decision (deltas 0, confidence 0,
shouldAdjust false, reason "Cooldown period active"), whatever happened
to metrics, error history or trend state in between; the state is not
touched either. -/
theorem cooldown_decisions_identical (s1 s2 : SelfAdjustingI2C) (now1 now2 : ℕ)
    (h1 : now1 - s1.lastAdjustmentTime < s1.adjustmentCooldown)
    (h2 : now2 - s2.lastAdjustmentTime < s2.adjustmentCooldown) :
    (analyzePerformanceAndDecide s1 now1).1 = (analyzePerformanceAndDecide s2 now2).1 ∧
    (analyzePerformanceAndDecide s1 now1).1 = ⟨0, 0, 0, false, "Cooldown period active"⟩ ∧
    (analyzePerformanceAndDecide s1 now1).2 = s1 := by
  unfold analyzePerformanceAndDecide
  rw [if_pos h1, if_pos h2]
  exact ⟨rfl, rfl, rfl⟩

/-- Witness for C8: the fresh controller at time 100 and a controller
with completely different metrics, counters and error history inside its
own cooldown window at time 9500. -/
theorem cooldown_decisions_identical_witness :
    (100 : ℕ) - initialState.lastAdjustmentTime < initialState.adjustmentCooldown ∧
    (analyzePerformanceAndDecide initialState 100).1 =
      (analyzePerformanceAndDecide
        { initialState with
          currentConfig := { initialState.currentConfig with
            metrics := ⟨40, 2, 20000, 500, 4, 0, 123⟩ }
          consecutiveErrors := 2
          lastAdjustmentTime := 9000
          errorHistory := [1, 1, 2, 0, 0, 0, 0, 0, 0, 0] }
        9500).1 :=
  ⟨by decide,
    (cooldown_decisions_identical initialState _ 100 9500 (by decide) (by decide)).1⟩

/-- C5: decision rules are tried in their fixed priority order and the
first match wins: out of cooldown, whenever recentErrorRate is above 10
percent, rule 1 fires (clock -1, rise +1, confidence 85, shouldAdjust
true) with no state change, even if the rule-2 precondition also
holds. -/
theorem rule1_wins_priority (s : SelfAdjustingI2C) (now : ℕ)
    (hcool : ¬ (now - s.lastAdjustmentTime < s.adjustmentCooldown))
    (herr : getRecentErrorRate s > 10) :
    (analyzePerformanceAndDecide s now).1 = ⟨-1, 1, 85, true, "High error rate detected"⟩ ∧
    (analyzePerformanceAndDecide s now).2 = s := by
  unfold analyzePerformanceAndDecide
  rw [if_neg hcool]
  dsimp only
  rw [if_pos herr]
  exact ⟨rfl, rfl⟩

/-- State used to witness the rule-priority claim: 20 percent recent
error rate while the rule-2 precondition (errorRate 0, more than 20
successes) holds as well. -/
def ruleOneState : SelfAdjustingI2C :=
  { initialState with
    currentConfig := { initialState.currentConfig with
      metrics := ⟨25, 0, 12500, 500, 0, 0, 0⟩ }
    errorHistory := [1, 1, 0, 0, 0, 0, 0, 0, 0, 0] }

/-- Witness for C5: rule 1 fires although the rule-2 precondition holds
too. -/
theorem rule1_wins_priority_witness :
    ruleOneState.currentConfig.metrics.errorRate = 0 ∧
    ruleOneState.currentConfig.metrics.successfulTransactions > 20 ∧
    getRecentErrorRate ruleOneState > 10 ∧
    (analyzePerformanceAndDecide ruleOneState 6000).1 =
      ⟨-1, 1, 85, true, "High error rate detected"⟩ := by
  have herr : getRecentErrorRate ruleOneState > 10 := by
    have hc : ruleOneState.errorHistory.countP (fun e => e != 0) = 2 := rfl
    unfold getRecentErrorRate
    rw [hc]
    norm_num
  exact ⟨rfl, by decide, herr,
    (rule1_wins_priority ruleOneState 6000 (by decide) herr).1⟩

/-- C4: when rules 1 and 2 fail and the current score is below 0.7 times
the best score, the decision is clock 0, rise 0, confidence 95,
shouldAdjust false, reason "Restoring best configuration", and inside
the same invocation the best configuration replaces the current one and
its clock value is pushed to the hardware sink. -/
theorem rule3_restores_best (s : SelfAdjustingI2C) (now : ℕ)
    (hcool : ¬ (now - s.lastAdjustmentTime < s.adjustmentCooldown))
    (h1 : ¬ (getRecentErrorRate s > 10))
    (h2 : ¬ (s.currentConfig.metrics.errorRate = 0 ∧
      s.currentConfig.metrics.successfulTransactions > 20))
    (h3 : calculatePerformanceScore s s.currentConfig.metrics <
      calculatePerformanceScore s s.bestConfig.metrics * (7 / 10)) :
    (analyzePerformanceAndDecide s now).1 = ⟨0, 0, 95, false, "Restoring best configuration"⟩ ∧
    (analyzePerformanceAndDecide s now).2 = restoreBestConfiguration s ∧
    (analyzePerformanceAndDecide s now).2.currentConfig = s.bestConfig ∧
    (analyzePerformanceAndDecide s now).2.hwClockSpeed = s.bestConfig.clockSpeed := by
  unfold analyzePerformanceAndDecide
  rw [if_neg hcool]
  dsimp only
  rw [if_neg h1, if_neg h2, if_pos h3]
  exact ⟨rfl, rfl, rfl, rfl⟩

/-- State used to witness the restore branch: no current successes, a
best configuration with recorded successes, clean recent error
history. -/
def restoreBranchState : SelfAdjustingI2C :=
  { initialState with
    bestConfig := { initialState.bestConfig with
      clockSpeed := 1877631
      metrics := { zeroMetrics with successfulTransactions := 1 } } }

/-- Witness for C4 at a concrete state and time 6000: the current score
is 0, the best score 7.5, and the branch fires. -/
theorem rule3_restores_best_witness :
    calculatePerformanceScore restoreBranchState restoreBranchState.currentConfig.metrics <
      calculatePerformanceScore restoreBranchState restoreBranchState.bestConfig.metrics * (7 / 10) ∧
    (analyzePerformanceAndDecide restoreBranchState 6000).1 =
      ⟨0, 0, 95, false, "Restoring best configuration"⟩ ∧
    (analyzePerformanceAndDecide restoreBranchState 6000).2.currentConfig =
      restoreBranchState.bestConfig ∧
    (analyzePerformanceAndDecide restoreBranchState 6000).2.hwClockSpeed = 1877631 := by
  have hcur : calculatePerformanceScore restoreBranchState
      restoreBranchState.currentConfig.metrics = 0 := by
    have hm : restoreBranchState.currentConfig.metrics.successfulTransactions = 0 := rfl
    unfold calculatePerformanceScore calculatePerformanceScoreF
    rw [if_pos hm]
  have hstab : stabilityFrom
      (calculatePerformanceScoreF LEARNING_WINDOW_SIZE restoreBranchState)
      restoreBranchState = 50 := by
    unfold stabilityFrom
    rw [if_pos (by decide)]
  have hbest : calculatePerformanceScore restoreBranchState
      restoreBranchState.bestConfig.metrics = 15 / 2 := by
    have hm : restoreBranchState.bestConfig.metrics.successfulTransactions = 1 := rfl
    unfold calculatePerformanceScore calculatePerformanceScoreF
    rw [if_neg (by rw [hm]; decide)]
    have hrel : calculateReliabilityScore restoreBranchState = 0 := by
      unfold calculateReliabilityScore
      rw [if_pos (by decide)]
    have heff : calculateEfficiencyScore restoreBranchState = 0 := by
      unfold calculateEfficiencyScore
      rw [if_pos (by decide)]
    rw [hrel, heff, hstab]
    norm_num
  have h3 : calculatePerformanceScore restoreBranchState
      restoreBranchState.currentConfig.metrics <
      calculatePerformanceScore restoreBranchState
        restoreBranchState.bestConfig.metrics * (7 / 10) := by
    rw [hcur, hbest]
    norm_num
  have h1 : ¬ (getRecentErrorRate restoreBranchState > 10) := by
    have hc : restoreBranchState.errorHistory.countP (fun e => e != 0) = 0 := rfl
    unfold getRecentErrorRate
    rw [hc]
    norm_num
  have h2 : ¬ (restoreBranchState.currentConfig.metrics.errorRate = 0 ∧
      restoreBranchState.currentConfig.metrics.successfulTransactions > 20) := by
    rintro ⟨-, hs⟩
    exact absurd hs (by decide)
  have hmain := rule3_restores_best restoreBranchState 6000 (by decide) h1 h2 h3
  exact ⟨h3, hmain.1, hmain.2.2.1, by rw [hmain.2.2.2]; rfl⟩

/-- C3: when a recorded failure brings the consecutive-error counter up
to the threshold 3, exactly one recovery tier runs, chosen by the
priority Emergency (if enabled), then Adaptive (if adaptive mode on),
then Incremental, and afterwards the counter is 0.  The state s2 below
is the controller after the metrics update and the error-bookkeeping
lines at the top of handleError. -/
theorem recovery_tier_fires_once (s : SelfAdjustingI2C) (e : I2CErrorType)
    (t a now : ℕ) (h : s.consecutiveErrors + 1 = ERROR_THRESHOLD) :
    recordFailure s e t a now =
      (let s2 := noteError (updatePerformanceMetrics s false t a now) e now
       if s2.emergencyRecovery then emergencyRecoveryProcedure s2 now
       else if s2.adaptiveMode then adaptiveRecovery s2 now
       else incrementalRecovery s2) ∧
    (recordFailure s e t a now).consecutiveErrors = 0 := by
  have hce : (noteError (updatePerformanceMetrics s false t a now) e now).consecutiveErrors =
      ERROR_THRESHOLD := by
    rw [noteError_consecutiveErrors, updatePerformanceMetrics_consecutiveErrors]
    simp only [Bool.false_eq_true, if_false]
    rw [h]
    decide
  constructor
  · show handleError (updatePerformanceMetrics s false t a now) e now = _
    unfold handleError
    dsimp only
    rw [if_pos (le_of_eq hce.symm)]
  · show (handleError (updatePerformanceMetrics s false t a now) e now).consecutiveErrors = 0
    rw [handleError_consecutiveErrors]
    rw [noteError_consecutiveErrors] at hce
    rw [hce]
    decide

/-- Witness for C3 on a controller two failures deep with emergency
recovery disabled and adaptive mode on, so the adaptive tier is the one
selected. -/
theorem recovery_tier_fires_once_witness :
    ({ initialState with consecutiveErrors := 2, emergencyRecovery := false
      } : SelfAdjustingI2C).consecutiveErrors + 1 = ERROR_THRESHOLD ∧
    (recordFailure { initialState with consecutiveErrors := 2, emergencyRecovery := false }
      .ERROR_TIMEOUT 100 8 6000).consecutiveErrors = 0 :=
  ⟨by decide,
    (recovery_tier_fires_once
      { initialState with consecutiveErrors := 2, emergencyRecovery := false }
      .ERROR_TIMEOUT 100 8 6000 (by decide)).2⟩

@[simp]
theorem updatePerformanceMetrics_emergencyRecovery (s : SelfAdjustingI2C)
    (success : Bool) (t a now : ℕ) :
    (updatePerformanceMetrics s success t a now).emergencyRecovery = s.emergencyRecovery := by
  unfold updatePerformanceMetrics
  rfl

@[simp]
theorem noteError_emergencyRecovery (s : SelfAdjustingI2C) (e : I2CErrorType) (now : ℕ) :
    (noteError s e now).emergencyRecovery = s.emergencyRecovery := rfl

@[simp]
theorem emergencyRecoveryProcedure_emergencyRecovery (s : SelfAdjustingI2C) (now : ℕ) :
    (emergencyRecoveryProcedure s now).emergencyRecovery = s.emergencyRecovery := rfl

@[simp]
theorem incrementalRecovery_emergencyRecovery (s : SelfAdjustingI2C) :
    (incrementalRecovery s).emergencyRecovery = s.emergencyRecovery := by
  unfold incrementalRecovery
  dsimp only
  split <;> rfl

@[simp]
theorem adaptiveRecovery_emergencyRecovery (s : SelfAdjustingI2C) (now : ℕ) :
    (adaptiveRecovery s now).emergencyRecovery = s.emergencyRecovery := by
  unfold adaptiveRecovery
  dsimp only
  split
  · rfl
  · split <;> split <;> rfl

theorem handleError_emergencyRecovery (s : SelfAdjustingI2C) (e : I2CErrorType) (now : ℕ) :
    (handleError s e now).emergencyRecovery = s.emergencyRecovery := by
  unfold handleError
  dsimp only
  split
  · split
    · simp
    · split <;> simp
  · rfl

theorem recordFailure_emergencyRecovery (s : SelfAdjustingI2C) (e : I2CErrorType)
    (t a now : ℕ) :
    (recordFailure s e t a now).emergencyRecovery = s.emergencyRecovery := by
  show (handleError _ _ _).emergencyRecovery = _
  rw [handleError_emergencyRecovery, updatePerformanceMetrics_emergencyRecovery]

theorem recordFailure_consecutiveErrors_small (s : SelfAdjustingI2C) (e : I2CErrorType)
    (t a now : ℕ) (h : s.consecutiveErrors + 1 < ERROR_THRESHOLD) :
    (recordFailure s e t a now).consecutiveErrors = s.consecutiveErrors + 1 := by
  show (handleError _ _ _).consecutiveErrors = _
  rw [handleError_consecutiveErrors, updatePerformanceMetrics_consecutiveErrors]
  simp only [Bool.false_eq_true, if_false]
  have hm : (s.consecutiveErrors + 1) % 256 = s.consecutiveErrors + 1 :=
    Nat.mod_eq_of_lt (by unfold ERROR_THRESHOLD at h; omega)
  rw [hm, if_neg (not_le.mpr h)]

/-- C6: three consecutive recorded failures on a controller with a clean
counter, emergency recovery enabled and the default 5 second cooldown
leave clockSpeedStep 0, riseTimeStep STEPS-1, learning disabled, the
cooldown extended to 15 seconds and the consecutive-error counter reset
to 0. -/
theorem three_failures_emergency (s : SelfAdjustingI2C) (e1 e2 e3 : I2CErrorType)
    (t1 t2 t3 a1 a2 a3 n1 n2 n3 : ℕ)
    (h0 : s.consecutiveErrors = 0) (hem : s.emergencyRecovery = true)
    (hcd : s.adjustmentCooldown = 5000) :
    (recordFailure (recordFailure (recordFailure s e1 t1 a1 n1) e2 t2 a2 n2)
        e3 t3 a3 n3).currentConfig.clockSpeedStep = 0 ∧
    (recordFailure (recordFailure (recordFailure s e1 t1 a1 n1) e2 t2 a2 n2)
        e3 t3 a3 n3).currentConfig.riseTimeStep = DYNAMIC_RANGE_STEPS - 1 ∧
    (recordFailure (recordFailure (recordFailure s e1 t1 a1 n1) e2 t2 a2 n2)
        e3 t3 a3 n3).learningMode = false ∧
    (recordFailure (recordFailure (recordFailure s e1 t1 a1 n1) e2 t2 a2 n2)
        e3 t3 a3 n3).adjustmentCooldown = 15000 ∧
    (recordFailure (recordFailure (recordFailure s e1 t1 a1 n1) e2 t2 a2 n2)
        e3 t3 a3 n3).consecutiveErrors = 0 := by
  have h1ce : (recordFailure s e1 t1 a1 n1).consecutiveErrors = 1 := by
    rw [recordFailure_consecutiveErrors_small s e1 t1 a1 n1 (by rw [h0]; decide), h0]
  have h1em : (recordFailure s e1 t1 a1 n1).emergencyRecovery = true := by
    rw [recordFailure_emergencyRecovery]; exact hem
  have h2ce : (recordFailure (recordFailure s e1 t1 a1 n1) e2 t2 a2 n2).consecutiveErrors = 2 := by
    rw [recordFailure_consecutiveErrors_small _ e2 t2 a2 n2 (by rw [h1ce]; decide), h1ce]
  have h2em : (recordFailure (recordFailure s e1 t1 a1 n1) e2 t2 a2 n2).emergencyRecovery = true := by
    rw [recordFailure_emergencyRecovery]; exact h1em
  have hce3 : (noteError (updatePerformanceMetrics
      (recordFailure (recordFailure s e1 t1 a1 n1) e2 t2 a2 n2) false t3 a3 n3)
      e3 n3).consecutiveErrors = ERROR_THRESHOLD := by
    rw [noteError_consecutiveErrors, updatePerformanceMetrics_consecutiveErrors]
    simp only [Bool.false_eq_true, if_false]
    rw [h2ce]
    decide
  have hem3 : (noteError (updatePerformanceMetrics
      (recordFailure (recordFailure s e1 t1 a1 n1) e2 t2 a2 n2) false t3 a3 n3)
      e3 n3).emergencyRecovery = true := by
    rw [noteError_emergencyRecovery, updatePerformanceMetrics_emergencyRecovery]
    exact h2em
  have hfire : recordFailure (recordFailure (recordFailure s e1 t1 a1 n1) e2 t2 a2 n2)
      e3 t3 a3 n3 =
      emergencyRecoveryProcedure (noteError (updatePerformanceMetrics
        (recordFailure (recordFailure s e1 t1 a1 n1) e2 t2 a2 n2) false t3 a3 n3)
        e3 n3) n3 := by
    show handleError _ e3 n3 = _
    unfold handleError
    dsimp only
    rw [if_pos (le_of_eq hce3.symm), if_pos hem3]
  rw [hfire]
  exact ⟨rfl, rfl, rfl, rfl, rfl⟩

/-- Witness for C6: three timeouts on the fresh controller. -/
theorem three_failures_emergency_witness :
    initialState.consecutiveErrors = 0 ∧
    initialState.emergencyRecovery = true ∧
    (recordFailure (recordFailure (recordFailure initialState
      .ERROR_TIMEOUT 100 8 1000) .ERROR_TIMEOUT 100 8 2000)
      .ERROR_TIMEOUT 100 8 3000).learningMode = false ∧
    (recordFailure (recordFailure (recordFailure initialState
      .ERROR_TIMEOUT 100 8 1000) .ERROR_TIMEOUT 100 8 2000)
      .ERROR_TIMEOUT 100 8 3000).adjustmentCooldown = 15000 :=
  ⟨rfl, rfl,
    (three_failures_emergency initialState .ERROR_TIMEOUT .ERROR_TIMEOUT .ERROR_TIMEOUT
      100 100 100 8 8 8 1000 2000 3000 rfl rfl rfl).2.2.1,
    (three_failures_emergency initialState .ERROR_TIMEOUT .ERROR_TIMEOUT .ERROR_TIMEOUT
      100 100 100 8 8 8 1000 2000 3000 rfl rfl rfl).2.2.2.1⟩

/-- Unfolding equation of calculatePerformanceScore: the argument decides
only the zero test, the three component scores are read from the
controller state. -/
theorem calculatePerformanceScore_eq (s : SelfAdjustingI2C) (m : I2CPerformanceMetrics) :
    calculatePerformanceScore s m =
      if m.successfulTransactions = 0 then 0
      else calculateReliabilityScore s * (6 / 10) + calculateEfficiencyScore s * (25 / 100) +
        calculateStabilityScore s * (15 / 100) := rfl

/-- C1 counterexample: the claimed formula computes reliability and
efficiency from the fields of the argument m; on the fresh controller
with m = one success, one failure, average time 1000 the code returns
7.5 (all component scores read from currentConfig.metrics, which is all
zero) while the claimed formula gives 50. -/
theorem performanceScore_not_function_of_argument :
    calculatePerformanceScore initialState ⟨1, 1, 1000, 1000, 50, 0, 0⟩ ≠
      (100 * (1 : ℚ) / (1 + 1)) * (60 / 100) +
        (100 / (1 + (1000 : ℚ) / 1000)) * (25 / 100) +
        calculateStabilityScore initialState * (15 / 100) := by
  have hrel : calculateReliabilityScore initialState = 0 := by
    unfold calculateReliabilityScore
    rw [if_pos (by decide)]
  have heff : calculateEfficiencyScore initialState = 0 := by
    unfold calculateEfficiencyScore
    rw [if_pos (by decide)]
  have hstab : calculateStabilityScore initialState = 50 := by
    unfold calculateStabilityScore stabilityFrom
    rw [if_pos (by decide)]
  rw [calculatePerformanceScore_eq, if_neg (by decide), hrel, heff, hstab]
  norm_num

/-- C1 amended: score(s, m) returns 0 when m has no successes and
otherwise the weighted sum 0.60 reliability + 0.25 efficiency + 0.15
stability, where all three components are computed from the controller
state (currentConfig.metrics and the history), not from m; consequently
any two metrics arguments with nonzero successes get the same score. -/
theorem performanceScore_uses_controller_state (s : SelfAdjustingI2C)
    (m : I2CPerformanceMetrics) :
    (calculatePerformanceScore s m =
      if m.successfulTransactions = 0 then 0
      else calculateReliabilityScore s * (6 / 10) + calculateEfficiencyScore s * (25 / 100) +
        calculateStabilityScore s * (15 / 100)) ∧
    (∀ m2 : I2CPerformanceMetrics, m.successfulTransactions ≠ 0 →
      m2.successfulTransactions ≠ 0 →
      calculatePerformanceScore s m = calculatePerformanceScore s m2) := by
  constructor
  · exact calculatePerformanceScore_eq s m
  · intro m2 h1 h2
    rw [calculatePerformanceScore_eq s m, calculatePerformanceScore_eq s m2,
      if_neg h1, if_neg h2]

/-- Witness for the amended C1: two entirely different metrics records
with nonzero successes score identically on the fresh controller. -/
theorem performanceScore_uses_controller_state_witness :
    calculatePerformanceScore initialState ⟨1, 0, 500, 500, 0, 0, 0⟩ =
      calculatePerformanceScore initialState ⟨2, 5, 7, 9, 11, 0, 3⟩ :=
  (performanceScore_uses_controller_state initialState ⟨1, 0, 500, 500, 0, 0, 0⟩).2
    ⟨2, 5, 7, 9, 11, 0, 3⟩ (by decide) (by decide)

/-- Entries whose address differs from the targeted one are untouched by
the mutation through the findDeviceConfig pointer. -/
theorem updateFirstDevice_getElem (l : List DeviceConfig) (a : ℕ)
    (f : DeviceConfig → DeviceConfig) :
    ∀ (i : ℕ) (d : DeviceConfig), l[i]? = some d → d.address ≠ a →
      (updateFirstDevice l a f)[i]? = some d := by
  induction l with
  | nil =>
    intro i d h
    simp at h
  | cons x xs ih =>
    intro i d h hne
    unfold updateFirstDevice
    split
    · rename_i hx
      cases i with
      | zero =>
        simp only [List.getElem?_cons_zero, Option.some.injEq] at h
        subst h
        exact absurd hx hne
      | succ n =>
        simp only [List.getElem?_cons_succ] at h ⊢
        exact h
    · cases i with
      | zero =>
        simpa using h
      | succ n =>
        simp only [List.getElem?_cons_succ] at h ⊢
        exact ih n d h hne

/-- C2 amended: setDeviceSpecificConfig leaves currentConfig, bestConfig
and every device entry with a different address unchanged; the global
DynamicRange instances, however, are not protected (see the
counterexample). -/
theorem deviceConfig_isolation_amended (s : SelfAdjustingI2C) (A cv rv : ℕ) :
    (setDeviceSpecificConfig s A cv rv).currentConfig = s.currentConfig ∧
    (setDeviceSpecificConfig s A cv rv).bestConfig = s.bestConfig ∧
    (∀ (i : ℕ) (d : DeviceConfig), s.deviceConfigs[i]? = some d → d.address ≠ A →
      (setDeviceSpecificConfig s A cv rv).deviceConfigs[i]? = some d) := by
  have hadd_cc : (addDeviceConfig s A).currentConfig = s.currentConfig := by
    unfold addDeviceConfig; split <;> rfl
  have hadd_bc : (addDeviceConfig s A).bestConfig = s.bestConfig := by
    unfold addDeviceConfig; split <;> rfl
  have hadd_dev : ∀ (i : ℕ) (d : DeviceConfig), s.deviceConfigs[i]? = some d →
      (addDeviceConfig s A).deviceConfigs[i]? = some d := by
    intro i d h
    unfold addDeviceConfig
    split
    · dsimp only
      rw [List.getElem?_append, if_pos (List.getElem?_eq_some.mp h).1]
      exact h
    · exact h
  unfold setDeviceSpecificConfig
  dsimp only
  generalize hg : (if (findDeviceConfig s A).isNone then addDeviceConfig s A else s) = s1
  have h1cc : s1.currentConfig = s.currentConfig := by
    rw [← hg]; split
    · exact hadd_cc
    · rfl
  have h1bc : s1.bestConfig = s.bestConfig := by
    rw [← hg]; split
    · exact hadd_bc
    · rfl
  have h1dev : ∀ (i : ℕ) (d : DeviceConfig), s.deviceConfigs[i]? = some d →
      s1.deviceConfigs[i]? = some d := by
    intro i d h
    rw [← hg]; split
    · exact hadd_dev i d h
    · exact h
  split
  · exact ⟨h1cc, h1bc, fun i d h _ => h1dev i d h⟩
  · split
    · exact ⟨h1cc, h1bc,
        fun i d h hne => updateFirstDevice_getElem _ A _ i d (h1dev i d h) hne⟩
    · exact ⟨h1cc, h1bc, fun i d h _ => h1dev i d h⟩

/-- Floor of a quotient of natural casts is natural division. -/
theorem natCast_div_floor (a b : ℕ) : ⌊((a : ℚ)) / ((b : ℚ))⌋₊ = a / b := by
  rw [Nat.floor_div_nat ((a : ℚ)) b, Nat.floor_natCast]

/-- Evaluation of the interior floor expression of calculateStepFromValue
for a step size given as a quotient of naturals. -/
theorem stepFromValue_div_eval (v m a b : ℕ) (hmv : m ≤ v) :
    ⌊((v : ℚ) - (m : ℚ)) / (((a : ℕ) : ℚ) / ((b : ℕ) : ℚ))⌋₊ = (v - m) * b / a := by
  rw [show ((v : ℚ) - (m : ℚ)) / (((a : ℕ) : ℚ) / ((b : ℕ) : ℚ)) =
      (((v - m) * b : ℕ) : ℚ) / ((a : ℕ) : ℚ) by
    rw [div_div_eq_mul_div]
    push_cast [hmv]
    ring]
  exact natCast_div_floor _ _

/-- Initial current step of the clock-speed range: the constructor maps
the 100000 Hz default to step 0 (not the statically initialised 1). -/
theorem initialClockSpeedRange_current_step : initialClockSpeedRange.current_step = 0 := by
  have h : initialClockSpeedRange.current_step =
      min (⌊(((100000 : ℕ) : ℚ) - ((75000 : ℕ) : ℚ)) /
        (((3425000 : ℕ) : ℚ) / ((19 : ℕ) : ℚ))⌋₊) (DYNAMIC_RANGE_STEPS - 1) := rfl
  rw [h, stepFromValue_div_eval 100000 75000 3425000 19 (by norm_num)]
  rfl

/-- Initial current step of the rise-time range: the constructor maps
the 125 ns default to step 7 (not the statically initialised 8). -/
theorem initialRiseTimeRange_current_step : initialRiseTimeRange.current_step = 7 := by
  have h : initialRiseTimeRange.current_step =
      min (⌊(((125 : ℕ) : ℚ) - ((40 : ℕ) : ℚ)) /
        (((210 : ℕ) : ℚ) / ((19 : ℕ) : ℚ))⌋₊) (DYNAMIC_RANGE_STEPS - 1) := rfl
  rw [h, stepFromValue_div_eval 125 40 210 19 (by norm_num)]
  rfl

/-- C2 counterexample: setting a device-specific configuration for
address 8 with clock 3.5 MHz moves the process-wide clockSpeedRange to
step 19, so the shared DynamicRange instances are not left unchanged. -/
theorem deviceConfig_mutates_global_range :
    (setDeviceSpecificConfig initialState 8 3500000 250).clockSpeedRange.current_step ≠
      initialState.clockSpeedRange.current_step := by
  have hL : (setDeviceSpecificConfig initialState 8 3500000 250).clockSpeedRange.current_step
      = 19 := rfl
  have hR : initialState.clockSpeedRange.current_step = 0 :=
    initialClockSpeedRange_current_step
  rw [hL, hR]
  decide

/-- Witness for the amended C2: with a registered device at address 5,
configuring address 8 leaves the global configuration and the entry of
device 5 untouched. -/
theorem deviceConfig_isolation_amended_witness :
    (setDeviceSpecificConfig
        { initialState with deviceConfigs := [⟨5, initialState.currentConfig, false⟩] }
        8 3500000 250).currentConfig =
      ({ initialState with deviceConfigs := [⟨5, initialState.currentConfig, false⟩]}
        : SelfAdjustingI2C).currentConfig ∧
    (setDeviceSpecificConfig
        { initialState with deviceConfigs := [⟨5, initialState.currentConfig, false⟩] }
        8 3500000 250).deviceConfigs[0]? =
      some ⟨5, initialState.currentConfig, false⟩ :=
  ⟨(deviceConfig_isolation_amended
      { initialState with deviceConfigs := [⟨5, initialState.currentConfig, false⟩] }
      8 3500000 250).1,
    (deviceConfig_isolation_amended
      { initialState with deviceConfigs := [⟨5, initialState.currentConfig, false⟩] }
      8 3500000 250).2.2 0 ⟨5, initialState.currentConfig, false⟩ rfl (by decide)⟩

/-- Monotonicity of the step-to-value map for any range with nonnegative
step size, on unclamped steps. -/
theorem calculateValueFromStep_mono (r : DynamicRange) (hs : 0 ≤ r.step_size)
    {s1 s2 : ℕ} (h12 : s1 ≤ s2) (h2 : s2 < DYNAMIC_RANGE_STEPS) :
    calculateValueFromStep r s1 ≤ calculateValueFromStep r s2 := by
  unfold calculateValueFromStep
  dsimp only
  rw [if_neg (by simp only [DYNAMIC_RANGE_STEPS] at h2 ⊢; omega),
    if_neg (by simp only [DYNAMIC_RANGE_STEPS] at h2 ⊢; omega)]
  have hf := Nat.floor_mono (α := ℚ)
    (mul_le_mul_of_nonneg_right (by exact_mod_cast h12 : (s1 : ℚ) ≤ (s2 : ℚ)) hs)
  exact Nat.add_le_add_left hf _

/-- Closed form of the clock-range step-to-value map. -/
theorem clock_value_eval (st : ℕ) (h : st < DYNAMIC_RANGE_STEPS) :
    calculateValueFromStep initialClockSpeedRange st = 75000 + st * 3425000 / 19 := by
  have h0 : calculateValueFromStep initialClockSpeedRange st =
      75000 + ⌊(st : ℚ) * (((3425000 : ℕ) : ℚ) / ((19 : ℕ) : ℚ))⌋₊ := by
    unfold calculateValueFromStep
    dsimp only
    rw [if_neg (by simp only [DYNAMIC_RANGE_STEPS] at h ⊢; omega)]
    rfl
  rw [h0]
  congr 1
  rw [show (st : ℚ) * (((3425000 : ℕ) : ℚ) / ((19 : ℕ) : ℚ)) =
      ((st * 3425000 : ℕ) : ℚ) / ((19 : ℕ) : ℚ) by push_cast; ring]
  exact natCast_div_floor _ _

/-- Closed form of the rise-range step-to-value map. -/
theorem rise_value_eval (st : ℕ) (h : st < DYNAMIC_RANGE_STEPS) :
    calculateValueFromStep initialRiseTimeRange st = 40 + st * 210 / 19 := by
  have h0 : calculateValueFromStep initialRiseTimeRange st =
      40 + ⌊(st : ℚ) * (((210 : ℕ) : ℚ) / ((19 : ℕ) : ℚ))⌋₊ := by
    unfold calculateValueFromStep
    dsimp only
    rw [if_neg (by simp only [DYNAMIC_RANGE_STEPS] at h ⊢; omega)]
    rfl
  rw [h0]
  congr 1
  rw [show (st : ℚ) * (((210 : ℕ) : ℚ) / ((19 : ℕ) : ℚ)) =
      ((st * 210 : ℕ) : ℚ) / ((19 : ℕ) : ℚ) by push_cast; ring]
  exact natCast_div_floor _ _

/-- Closed form of the clock-range value-to-step map on interior
values. -/
theorem clock_step_eval (v : ℕ) (h1 : 75000 < v) (h2 : v < 3500000) :
    calculateStepFromValue initialClockSpeedRange v =
      min ((v - 75000) * 19 / 3425000) (DYNAMIC_RANGE_STEPS - 1) := by
  have h0 : calculateStepFromValue initialClockSpeedRange v =
      min (⌊((v : ℚ) - ((75000 : ℕ) : ℚ)) /
        (((3425000 : ℕ) : ℚ) / ((19 : ℕ) : ℚ))⌋₊) (DYNAMIC_RANGE_STEPS - 1) := by
    unfold calculateStepFromValue
    rw [if_neg (by show ¬ v ≤ 75000; omega), if_neg (by show ¬ v ≥ 3500000; omega)]
    rfl
  rw [h0, stepFromValue_div_eval v 75000 3425000 19 (by omega)]

/-- Closed form of the rise-range value-to-step map on interior
values. -/
theorem rise_step_eval (v : ℕ) (h1 : 40 < v) (h2 : v < 250) :
    calculateStepFromValue initialRiseTimeRange v =
      min ((v - 40) * 19 / 210) (DYNAMIC_RANGE_STEPS - 1) := by
  have h0 : calculateStepFromValue initialRiseTimeRange v =
      min (⌊((v : ℚ) - ((40 : ℕ) : ℚ)) /
        (((210 : ℕ) : ℚ) / ((19 : ℕ) : ℚ))⌋₊) (DYNAMIC_RANGE_STEPS - 1) := by
    unfold calculateStepFromValue
    rw [if_neg (by show ¬ v ≤ 40; omega), if_neg (by show ¬ v ≥ 250; omega)]
    rfl
  rw [h0, stepFromValue_div_eval v 40 210 19 (by omega)]

/-- Roundtrip bound for the clock range: converting a step to a value
and back lands within one step. -/
theorem clock_roundtrip (st : ℕ) (h : st < DYNAMIC_RANGE_STEPS) :
    st - 1 ≤ calculateStepFromValue initialClockSpeedRange
        (calculateValueFromStep initialClockSpeedRange st) ∧
      calculateStepFromValue initialClockSpeedRange
        (calculateValueFromStep initialClockSpeedRange st) ≤ st + 1 := by
  rw [clock_value_eval st h]
  simp only [DYNAMIC_RANGE_STEPS] at h
  rcases eq_or_ne st 0 with rfl | h0
  · rw [show (75000 : ℕ) + 0 * 3425000 / 19 = 75000 by norm_num]
    have hs : calculateStepFromValue initialClockSpeedRange 75000 = 0 := by
      unfold calculateStepFromValue
      rw [if_pos (by show (75000 : ℕ) ≤ 75000; omega)]
    rw [hs]
    omega
  rcases eq_or_ne st 19 with rfl | h19
  · rw [show (75000 : ℕ) + 19 * 3425000 / 19 = 3500000 by norm_num]
    have hs : calculateStepFromValue initialClockSpeedRange 3500000 =
        DYNAMIC_RANGE_STEPS - 1 := by
      unfold calculateStepFromValue
      rw [if_neg (by show ¬ (3500000 : ℕ) ≤ 75000; omega),
        if_pos (by show (3500000 : ℕ) ≥ 3500000; omega)]
    rw [hs]
    decide
  · have hlow : 75000 < 75000 + st * 3425000 / 19 := by omega
    have hhigh : 75000 + st * 3425000 / 19 < 3500000 := by omega
    rw [clock_step_eval _ hlow hhigh]
    simp only [DYNAMIC_RANGE_STEPS]
    omega

/-- Roundtrip bound for the rise-time range. -/
theorem rise_roundtrip (st : ℕ) (h : st < DYNAMIC_RANGE_STEPS) :
    st - 1 ≤ calculateStepFromValue initialRiseTimeRange
        (calculateValueFromStep initialRiseTimeRange st) ∧
      calculateStepFromValue initialRiseTimeRange
        (calculateValueFromStep initialRiseTimeRange st) ≤ st + 1 := by
  rw [rise_value_eval st h]
  simp only [DYNAMIC_RANGE_STEPS] at h
  rcases eq_or_ne st 0 with rfl | h0
  · rw [show (40 : ℕ) + 0 * 210 / 19 = 40 by norm_num]
    have hs : calculateStepFromValue initialRiseTimeRange 40 = 0 := by
      unfold calculateStepFromValue
      rw [if_pos (by show (40 : ℕ) ≤ 40; omega)]
    rw [hs]
    omega
  rcases eq_or_ne st 19 with rfl | h19
  · rw [show (40 : ℕ) + 19 * 210 / 19 = 250 by norm_num]
    have hs : calculateStepFromValue initialRiseTimeRange 250 =
        DYNAMIC_RANGE_STEPS - 1 := by
      unfold calculateStepFromValue
      rw [if_neg (by show ¬ (250 : ℕ) ≤ 40; omega),
        if_pos (by show (250 : ℕ) ≥ 250; omega)]
    rw [hs]
    decide
  · have hlow : 40 < 40 + st * 210 / 19 := by omega
    have hhigh : 40 + st * 210 / 19 < 250 := by omega
    rw [rise_step_eval _ hlow hhigh]
    simp only [DYNAMIC_RANGE_STEPS]
    omega

/-- C7: on both ranges as initialised by the constructor, the
step-to-value map is monotone over the valid steps and the value-to-step
map returns to within one step of where it started. -/
theorem range_monotone_and_roundtrip :
    (∀ s1 s2 : ℕ, s1 ≤ s2 → s2 < DYNAMIC_RANGE_STEPS →
      calculateValueFromStep initialClockSpeedRange s1 ≤
        calculateValueFromStep initialClockSpeedRange s2) ∧
    (∀ s1 s2 : ℕ, s1 ≤ s2 → s2 < DYNAMIC_RANGE_STEPS →
      calculateValueFromStep initialRiseTimeRange s1 ≤
        calculateValueFromStep initialRiseTimeRange s2) ∧
    (∀ st : ℕ, st < DYNAMIC_RANGE_STEPS →
      st - 1 ≤ calculateStepFromValue initialClockSpeedRange
          (calculateValueFromStep initialClockSpeedRange st) ∧
        calculateStepFromValue initialClockSpeedRange
          (calculateValueFromStep initialClockSpeedRange st) ≤ st + 1) ∧
    (∀ st : ℕ, st < DYNAMIC_RANGE_STEPS →
      st - 1 ≤ calculateStepFromValue initialRiseTimeRange
          (calculateValueFromStep initialRiseTimeRange st) ∧
        calculateStepFromValue initialRiseTimeRange
          (calculateValueFromStep initialRiseTimeRange st) ≤ st + 1) := by
  refine ⟨fun s1 s2 h12 h2 => calculateValueFromStep_mono _ ?_ h12 h2,
    fun s1 s2 h12 h2 => calculateValueFromStep_mono _ ?_ h12 h2,
    clock_roundtrip, rise_roundtrip⟩
  · show (0 : ℚ) ≤ ((3425000 : ℕ) : ℚ) / ((19 : ℕ) : ℚ)
    positivity
  · show (0 : ℚ) ≤ ((210 : ℕ) : ℚ) / ((19 : ℕ) : ℚ)
    positivity

/-- Witness for C7 at steps 3 and 5 of the clock range and step 7 of
the rise range. -/
theorem range_monotone_and_roundtrip_witness :
    calculateValueFromStep initialClockSpeedRange 3 ≤
      calculateValueFromStep initialClockSpeedRange 5 ∧
    (7 - 1 ≤ calculateStepFromValue initialRiseTimeRange
        (calculateValueFromStep initialRiseTimeRange 7) ∧
      calculateStepFromValue initialRiseTimeRange
        (calculateValueFromStep initialRiseTimeRange 7) ≤ 7 + 1) :=
  ⟨range_monotone_and_roundtrip.1 3 5 (by decide) (by decide),
    range_monotone_and_roundtrip.2.2.2 7 (by decide)⟩
